import Mathlib

/-!
Shallow embedding of the Game Boy emulator core (CPU execution engine,
instruction decoder, interrupt controller, hardware timer, memory bus) of
the repository under verification, together with theorems settling the
claims about it.

Machine integers are modelled as plain naturals:
- a stored u8 is a natural below 256, a stored u16 a natural below 65536;
- Rust wrapping_add / wrapping_sub / overflowing_add become explicit
  arithmetic followed by a modulus (for wrapping subtraction of k we add
  2^w - k and reduce);
- the unchecked Rust addition on u16 (the plus operator, which panics on
  overflow when overflow checks are enabled) is modelled by checkedAdd16,
  returning none on overflow;
- signed bytes (i8) are modelled as integers, with the u8 -> i8 and
  i8 -> u8 reinterpretations spelled out as byteToI8 / i8ToByte.

Fallible paths (panics of the source: arithmetic overflow of the unchecked
additions, and the unknown-opcode panic in CPU::step) are modelled with
Option: none means the Rust code panics and no successor state exists.
-/

namespace GB

/-- Reduce a value modulo 2^16 (the effect of u16 wrapping arithmetic). -/
def wrap16 (x : Nat) : Nat := x % 65536

/-- Reduce a value modulo 2^8 (the effect of u8 wrapping arithmetic). -/
def wrap8 (x : Nat) : Nat := x % 256

/-- u16 wrapping_add. -/
def wadd16 (a b : Nat) : Nat := (a + b) % 65536

/-- u16 wrapping_sub of a constant k (add 2^16 - k and reduce). -/
def wsub16 (a k : Nat) : Nat := (a + (65536 - k % 65536)) % 65536

/-- The unchecked u16 addition of the source (the plus operator): Rust
arithmetic overflow is a program error, raising a panic when overflow
checks are enabled; modelled as none on overflow. -/
def checkedAdd16 (a b : Nat) : Option Nat :=
  if a + b ≤ 65535 then some (a + b) else none

/-- Reinterpret a byte as a signed i8 value (Rust as-cast u8 -> i8). -/
def byteToI8 (b : Nat) : Int :=
  if b < 128 then (b : Int) else (b : Int) - 256

/-- Reinterpret an i8 value as its unsigned byte (Rust as-cast i8 -> u8). -/
def i8ToByte (v : Int) : Nat := (v % 256).toNat

/-- Two's-complement 16-bit reinterpretation of an integer (the composite
i8 -> i16 -> u16 cast chain of the source). -/
def i16ToU16 (v : Int) : Nat := (v % 65536).toNat

/-! ## Register file (register.rs) -/

/-- The F register's four flags; bits 3-0 of F are always zero. -/
structure FlagsRegister where
  zero       : Bool
  subtract   : Bool
  half_carry : Bool
  carry      : Bool
  deriving Repr, DecidableEq

namespace FlagsRegister

/-- FlagsRegister::to_byte. -/
def to_byte (f : FlagsRegister) : Nat :=
  (if f.zero then 0x80 else 0) |||
  (if f.subtract then 0x40 else 0) |||
  (if f.half_carry then 0x20 else 0) |||
  (if f.carry then 0x10 else 0)

/-- FlagsRegister::from_byte (masks the low nibble away). -/
def from_byte (b : Nat) : FlagsRegister :=
  let b := b &&& 0xF0
  { zero := b &&& 0x80 ≠ 0
    subtract := b &&& 0x40 ≠ 0
    half_carry := b &&& 0x20 ≠ 0
    carry := b &&& 0x10 ≠ 0 }

end FlagsRegister

/-- The 8-bit register names (register.rs Register8). -/
inductive Register8 where
  | A | B | C | D | E | H | L
  deriving Repr, DecidableEq

/-- The 16-bit register-pair names (register.rs Register16). -/
inductive Register16 where
  | BC | DE | HL | SP
  deriving Repr, DecidableEq

/-- The CPU register file (register.rs Registers). -/
structure Registers where
  a : Nat
  b : Nat
  c : Nat
  d : Nat
  e : Nat
  f : FlagsRegister
  h : Nat
  l : Nat
  sp : Nat
  pc : Nat
  deriving Repr, DecidableEq

namespace Registers

/-- Registers::new post-boot values. -/
def new : Registers :=
  { a := 0x01, b := 0x00, c := 0x13, d := 0x00, e := 0xD8
    f := FlagsRegister.from_byte 0xC0
    h := 0x01, l := 0x4D, sp := 0xFFFE, pc := 0x100 }

def get_af (r : Registers) : Nat := (r.a <<< 8) ||| r.f.to_byte

def set_af (r : Registers) (v : Nat) : Registers :=
  { r with a := (v &&& 0xFF00) >>> 8, f := FlagsRegister.from_byte (v &&& 0x00FF) }

def get_bc (r : Registers) : Nat := (r.b <<< 8) ||| r.c

def set_bc (r : Registers) (v : Nat) : Registers :=
  { r with b := (v &&& 0xFF00) >>> 8, c := v &&& 0x00FF }

def get_de (r : Registers) : Nat := (r.d <<< 8) ||| r.e

def set_de (r : Registers) (v : Nat) : Registers :=
  { r with d := (v &&& 0xFF00) >>> 8, e := v &&& 0x00FF }

def get_hl (r : Registers) : Nat := (r.h <<< 8) ||| r.l

def set_hl (r : Registers) (v : Nat) : Registers :=
  { r with h := (v &&& 0xFF00) >>> 8, l := v &&& 0x00FF }

def read_8bit (r : Registers) : Register8 → Nat
  | .A => r.a | .B => r.b | .C => r.c | .D => r.d
  | .E => r.e | .H => r.h | .L => r.l

def write_8bit (r : Registers) (reg : Register8) (v : Nat) : Registers :=
  match reg with
  | .A => { r with a := v }
  | .B => { r with b := v }
  | .C => { r with c := v }
  | .D => { r with d := v }
  | .E => { r with e := v }
  | .H => { r with h := v }
  | .L => { r with l := v }

def read_16bit (r : Registers) : Register16 → Nat
  | .BC => r.get_bc | .DE => r.get_de | .HL => r.get_hl | .SP => r.sp

def write_16bit (r : Registers) (reg : Register16) (v : Nat) : Registers :=
  match reg with
  | .BC => r.set_bc v
  | .DE => r.set_de v
  | .HL => r.set_hl v
  | .SP => { r with sp := v }

end Registers

/-! ## Interrupt controller (interrupts.rs) -/

/-- The 5 interrupt sources in priority order (interrupts.rs Interrupt). -/
inductive Interrupt where
  | VBlank | LcdStat | Timer | Serial | Joypad
  deriving Repr, DecidableEq

namespace Interrupt

/-- The discriminant of the repr(u8) enum. -/
def toBit : Interrupt → Nat
  | .VBlank => 0 | .LcdStat => 1 | .Timer => 2 | .Serial => 3 | .Joypad => 4

/-- Interrupt::bit_mask. -/
def bit_mask (i : Interrupt) : Nat := 1 <<< i.toBit

/-- Interrupt::handler_address. -/
def handler_address : Interrupt → Nat
  | .VBlank => 0x0040
  | .LcdStat => 0x0048
  | .Timer => 0x0050
  | .Serial => 0x0058
  | .Joypad => 0x0060

/-- Interrupt::ALL, the priority order (highest first). -/
def ALL : List Interrupt := [.VBlank, .LcdStat, .Timer, .Serial, .Joypad]

end Interrupt

/-- interrupts.rs InterruptController: the IF and IE registers. -/
structure InterruptController where
  interrupt_flag : Nat
  interrupt_enable : Nat
  deriving Repr, DecidableEq

namespace InterruptController

/-- InterruptController::new. -/
def new : InterruptController := { interrupt_flag := 0xE0, interrupt_enable := 0x00 }

/-- read_if: bits 5-7 always read as 1. -/
def read_if (c : InterruptController) : Nat := c.interrupt_flag ||| 0xE0

/-- write_if: only the lower 5 bits are writable. -/
def write_if (c : InterruptController) (v : Nat) : InterruptController :=
  { c with interrupt_flag := (v &&& 0x1F) ||| 0xE0 }

def read_ie (c : InterruptController) : Nat := c.interrupt_enable

def write_ie (c : InterruptController) (v : Nat) : InterruptController :=
  { c with interrupt_enable := v }

/-- request_interrupt: set the source's IF bit. -/
def request_interrupt (c : InterruptController) (i : Interrupt) : InterruptController :=
  { c with interrupt_flag := c.interrupt_flag ||| i.bit_mask }

/-- acknowledge_interrupt: clear the source's IF bit (u8 complement of the
mask is 255 - mask). -/
def acknowledge_interrupt (c : InterruptController) (i : Interrupt) : InterruptController :=
  { c with interrupt_flag := c.interrupt_flag &&& (255 - i.bit_mask) }

/-- any_interrupt_pending: (IF & IE & 0x1F) != 0. -/
def any_interrupt_pending (c : InterruptController) : Bool :=
  c.interrupt_flag &&& c.interrupt_enable &&& 0x1F ≠ 0

/-- get_pending_interrupt: the first source in priority order whose bit is
set in IF & IE & 0x1F, or none when that mask is 0. -/
def get_pending_interrupt (c : InterruptController) : Option Interrupt :=
  let pending := c.interrupt_flag &&& c.interrupt_enable &&& 0x1F
  if pending = 0 then none
  else Interrupt.ALL.find? (fun i => pending &&& i.bit_mask ≠ 0)

/-- service_interrupt: clear the IF bit, return the handler address. -/
def service_interrupt (c : InterruptController) (i : Interrupt) :
    InterruptController × Nat :=
  (c.acknowledge_interrupt i, i.handler_address)

end InterruptController

/-- interrupts.rs INTERRUPT_CYCLES. -/
def INTERRUPT_CYCLES : Nat := 20

/-! ## Hardware timer (timer.rs) -/

/-- timer.rs Timer: DIV, TIMA, TMA, TAC, the previously sampled selected
DIV bit, and the pending overflow-reload countdown. -/
structure Timer where
  div : Nat
  tima : Nat
  tma : Nat
  tac : Nat
  prev_timer_bit : Bool
  overflow_delay : Option Nat
  deriving Repr, DecidableEq

namespace Timer

/-- TIMA_OVERFLOW_RELOAD_DELAY. -/
def TIMA_OVERFLOW_RELOAD_DELAY : Nat := 4

/-- Timer::new. -/
def new : Timer :=
  { div := 0, tima := 0, tma := 0, tac := 0
    prev_timer_bit := false, overflow_delay := none }

/-- get_timer_bit_position: frequency select of TAC bits 1-0. -/
def get_timer_bit_position (t : Timer) : Nat :=
  match t.tac &&& 0b0011 with
  | 0 => 9
  | 1 => 3
  | 2 => 5
  | _ => 7

/-- is_timer_enabled: TAC bit 2. -/
def is_timer_enabled (t : Timer) : Bool := t.tac &&& 0b0100 ≠ 0

/-- calculate_timer_bit: the selected DIV bit, or false when disabled. -/
def calculate_timer_bit (t : Timer) : Bool :=
  if ¬t.is_timer_enabled then false
  else (t.div >>> t.get_timer_bit_position) &&& 1 ≠ 0

/-- update_overflow_delay: decrement a pending reload countdown; on
reaching zero load TMA into TIMA and report the interrupt. -/
def update_overflow_delay (t : Timer) : Timer × Bool :=
  match t.overflow_delay with
  | some delay =>
      if delay = 1 then ({ t with tima := t.tma, overflow_delay := none }, true)
      else ({ t with overflow_delay := some (delay - 1) }, false)
  | none => (t, false)

/-- increment_tima: u8 overflowing_add by one; on overflow set TIMA to 0
and arm the 4-tick reload countdown. -/
def increment_tima (t : Timer) : Timer :=
  if t.tima + 1 ≥ 256 then
    { t with tima := 0x00, overflow_delay := some TIMA_OVERFLOW_RELOAD_DELAY }
  else
    { t with tima := (t.tima + 1) % 256 }

/-- handle_falling_edge_and_update_prev. -/
def handle_falling_edge_and_update_prev (t : Timer) (new_bit : Bool) : Timer :=
  let t := if t.prev_timer_bit ∧ ¬new_bit then t.increment_tima else t
  { t with prev_timer_bit := new_bit }

/-- Timer::tick: advance DIV, handle a pending reload, then edge-detect;
returns the successor state and whether the timer interrupt fires. -/
def tick (t : Timer) : Timer × Bool :=
  let t := { t with div := (t.div + 1) % 65536 }
  let (t, interrupt) := t.update_overflow_delay
  let current_bit := t.calculate_timer_bit
  let t := t.handle_falling_edge_and_update_prev current_bit
  (t, interrupt)

/-- read_div: the upper byte of the internal counter. -/
def read_div (t : Timer) : Nat := (t.div >>> 8) &&& 0xFF

/-- read_tac: unused bits read as 1. -/
def read_tac (t : Timer) : Nat := t.tac ||| 0b11111000

/-- write_div: reset the counter, then recompute the selected bit and
handle the glitch edge. -/
def write_div (t : Timer) : Timer :=
  let t := { t with div := 0 }
  t.handle_falling_edge_and_update_prev t.calculate_timer_bit

/-- write_tima: store the value and cancel any pending reload. -/
def write_tima (t : Timer) (v : Nat) : Timer :=
  { t with tima := v, overflow_delay := none }

def write_tma (t : Timer) (v : Nat) : Timer := { t with tma := v }

/-- write_tac: only bits 0-2 are writable; re-evaluate the edge. -/
def write_tac (t : Timer) (v : Nat) : Timer :=
  let t := { t with tac := v &&& 0x07 }
  t.handle_falling_edge_and_update_prev t.calculate_timer_bit

/-- Timer::read over the 4 timer register addresses. -/
def read (t : Timer) (addr : Nat) : Nat :=
  if addr = 0xFF04 then t.read_div
  else if addr = 0xFF05 then t.tima
  else if addr = 0xFF06 then t.tma
  else if addr = 0xFF07 then t.read_tac
  else 0xFF

/-- Timer::write over the 4 timer register addresses. -/
def write (t : Timer) (addr v : Nat) : Timer :=
  if addr = 0xFF04 then t.write_div
  else if addr = 0xFF05 then t.write_tima v
  else if addr = 0xFF06 then t.write_tma v
  else if addr = 0xFF07 then t.write_tac v
  else t

end Timer

/-! ## PPU collaborator (ppu.rs)

Only the byte-observable surface that the memory bus consumes is embedded
(VRAM bytes and the 12 LCD registers). The derived tile_set cache is
write-only with respect to that surface and is omitted. -/

/-- ppu.rs GPU state (VRAM as a byte map over offsets 0..0x1FFF). -/
structure GPU where
  vram : Nat → Nat
  lcdc : Nat
  stat : Nat
  scy : Nat
  scx : Nat
  ly : Nat
  lyc : Nat
  dma : Nat
  bgp : Nat
  obp0 : Nat
  obp1 : Nat
  wy : Nat
  wx : Nat

namespace GPU

/-- GPU::new defaults. -/
def new : GPU :=
  { vram := fun _ => 0
    lcdc := 0x91, stat := 0, scy := 0, scx := 0, ly := 0, lyc := 0
    dma := 0, bgp := 0xFC, obp0 := 0xFF, obp1 := 0xFF, wy := 0, wx := 0 }

def read_vram (g : GPU) (address : Nat) : Nat := g.vram address

def write_vram (g : GPU) (index v : Nat) : GPU :=
  { g with vram := fun x => if x = index then v else g.vram x }

/-- GPU::read_register over the LCD register addresses 0xFF40-0xFF4B. -/
def read_register (g : GPU) (addr : Nat) : Nat :=
  if addr = 0xFF40 then g.lcdc
  else if addr = 0xFF41 then g.stat
  else if addr = 0xFF42 then g.scy
  else if addr = 0xFF43 then g.scx
  else if addr = 0xFF44 then g.ly
  else if addr = 0xFF45 then g.lyc
  else if addr = 0xFF46 then g.dma
  else if addr = 0xFF47 then g.bgp
  else if addr = 0xFF48 then g.obp0
  else if addr = 0xFF49 then g.obp1
  else if addr = 0xFF4A then g.wy
  else if addr = 0xFF4B then g.wx
  else 0

/-- GPU::write_register over the LCD register addresses 0xFF40-0xFF4B. -/
def write_register (g : GPU) (addr v : Nat) : GPU :=
  if addr = 0xFF40 then { g with lcdc := v }
  else if addr = 0xFF41 then { g with stat := v }
  else if addr = 0xFF42 then { g with scy := v }
  else if addr = 0xFF43 then { g with scx := v }
  else if addr = 0xFF44 then { g with ly := v }
  else if addr = 0xFF45 then { g with lyc := v }
  else if addr = 0xFF46 then { g with dma := v }
  else if addr = 0xFF47 then { g with bgp := v }
  else if addr = 0xFF48 then { g with obp0 := v }
  else if addr = 0xFF49 then { g with obp1 := v }
  else if addr = 0xFF4A then { g with wy := v }
  else if addr = 0xFF4B then { g with wx := v }
  else g

end GPU

/-! ## Memory bus (memory_bus.rs) -/

/-- memory_bus.rs MemoryBus: raw memory (a byte map over the 64KB address
space), the GPU, the timer, the interrupt controller and the serial
output buffer. -/
structure MemoryBus where
  memory : Nat → Nat
  gpu : GPU
  timer : Timer
  interrupts : InterruptController
  serial_output : List Nat

namespace MemoryBus

/-- MemoryBus::read_byte, with the source's match arms in order. -/
def read_byte (bus : MemoryBus) (address : Nat) : Nat :=
  if address ≤ 0x7FFF then bus.memory address
  else if 0x8000 ≤ address ∧ address ≤ 0x9FFF then bus.gpu.read_vram (address - 0x8000)
  else if 0xA000 ≤ address ∧ address ≤ 0xBFFF then bus.memory address
  else if 0xC000 ≤ address ∧ address ≤ 0xCFFF then bus.memory address
  else if 0xD000 ≤ address ∧ address ≤ 0xDFFF then bus.memory address
  else if 0xE000 ≤ address ∧ address ≤ 0xFDFF then bus.memory (address - 0x2000)
  else if 0xFE00 ≤ address ∧ address ≤ 0xFE9F then bus.memory address
  else if address = 0xFF01 ∨ address = 0xFF02 then bus.memory address
  else if address = 0xFF04 ∨ address = 0xFF05 ∨ address = 0xFF06 ∨ address = 0xFF07 then
    bus.timer.read address
  else if 0xFF40 ≤ address ∧ address ≤ 0xFF4B then bus.gpu.read_register address
  else if address = 0xFF0F then bus.interrupts.read_if
  else if 0xFF00 ≤ address ∧ address ≤ 0xFF7F then bus.memory address
  else if 0xFF80 ≤ address ∧ address ≤ 0xFFFE then bus.memory address
  else if address = 0xFFFF then bus.interrupts.read_ie
  else 0xFF

/-- Point update of the raw memory map. -/
def setMem (bus : MemoryBus) (address v : Nat) : MemoryBus :=
  { bus with memory := fun x => if x = address then v else bus.memory x }

/-- MemoryBus::write_byte, with the source's match arms in order (ROM
writes dropped, echo RAM aliased, serial-control transfers appended to
the output buffer). -/
def write_byte (bus : MemoryBus) (address v : Nat) : MemoryBus :=
  if address ≤ 0x7FFF then bus
  else if 0x8000 ≤ address ∧ address ≤ 0x9FFF then
    { bus with gpu := bus.gpu.write_vram (address - 0x8000) v }
  else if 0xA000 ≤ address ∧ address ≤ 0xBFFF then bus.setMem address v
  else if 0xC000 ≤ address ∧ address ≤ 0xDFFF then bus.setMem address v
  else if 0xE000 ≤ address ∧ address ≤ 0xFDFF then bus.setMem (address - 0x2000) v
  else if 0xFE00 ≤ address ∧ address ≤ 0xFE9F then bus.setMem address v
  else if address = 0xFF01 then bus.setMem address v
  else if address = 0xFF02 then
    if v &&& 0x80 ≠ 0 then
      let character := bus.read_byte 0xFF01
      { bus with serial_output := bus.serial_output ++ [character],
                 memory := fun x => if x = 0xFF02 then v &&& 0x7F else bus.memory x }
    else bus.setMem address v
  else if address = 0xFF04 ∨ address = 0xFF05 ∨ address = 0xFF06 ∨ address = 0xFF07 then
    { bus with timer := bus.timer.write address v }
  else if 0xFF40 ≤ address ∧ address ≤ 0xFF4B then
    { bus with gpu := bus.gpu.write_register address v }
  else if address = 0xFF0F then { bus with interrupts := bus.interrupts.write_if v }
  else if 0xFF00 ≤ address ∧ address ≤ 0xFF7F then bus.setMem address v
  else if 0xFF80 ≤ address ∧ address ≤ 0xFFFE then bus.setMem address v
  else if address = 0xFFFF then { bus with interrupts := bus.interrupts.write_ie v }
  else bus

/-- MemoryBus::any_interrupt_pending. -/
def any_interrupt_pending (bus : MemoryBus) : Bool :=
  bus.interrupts.any_interrupt_pending

/-- MemoryBus::tick_timer: advance the timer one T-cycle and request the
Timer interrupt when the deferred reload completes. -/
def tick_timer (bus : MemoryBus) : MemoryBus :=
  let (t, fired) := bus.timer.tick
  let bus := { bus with timer := t }
  if fired then { bus with interrupts := bus.interrupts.request_interrupt .Timer }
  else bus

end MemoryBus

/-! ## Instruction set (instructions/) -/

/-- instructions/arithmetic.rs ArithmeticTarget. The D8 and HLI operand
forms are required by the match arms of CPU::execute (cpu.rs). -/
inductive ArithmeticTarget where
  | A | B | C | D | E | H | L | HLI | D8
  deriving Repr, DecidableEq

namespace ArithmeticTarget

/-- ArithmeticTarget::from_lower_bits; bit pattern 6 ((HL)) yields none. -/
def from_lower_bits (bits : Nat) : Option ArithmeticTarget :=
  match bits &&& 0x07 with
  | 0 => some .B
  | 1 => some .C
  | 2 => some .D
  | 3 => some .E
  | 4 => some .H
  | 5 => some .L
  | 6 => none
  | _ => some .A

end ArithmeticTarget

/-- instructions/control_flow.rs JumpTest. -/
inductive JumpTest where
  | NotZero | Zero | NotCarry | Carry | Always
  deriving Repr, DecidableEq

namespace JumpTest

/-- JumpTest::from_bits (bits 4-3 of the opcode). -/
def from_bits (bits : Nat) : Option JumpTest :=
  match (bits >>> 3) &&& 0x03 with
  | 0 => some .NotZero
  | 1 => some .Zero
  | 2 => some .NotCarry
  | _ => some .Carry

end JumpTest

/-- instructions/stack.rs StackTarget. -/
inductive StackTarget where
  | BC | DE | HL | AF
  deriving Repr, DecidableEq

namespace StackTarget

/-- StackTarget::from_bits (bits 5-4 of the opcode). -/
def from_bits (bits : Nat) : Option StackTarget :=
  match (bits >>> 4) &&& 0x03 with
  | 0 => some .BC
  | 1 => some .DE
  | 2 => some .HL
  | _ => some .AF

end StackTarget

/-- instructions/load.rs LoadByteTarget. -/
inductive LoadByteTarget where
  | A | B | C | D | E | H | L | HLI | DEI | BCI | A16I | A8I | HLI_INC | HLI_DEC | CI
  deriving Repr, DecidableEq

/-- instructions/load.rs LoadByteSource. -/
inductive LoadByteSource where
  | A | B | C | D | E | H | L | D8 | HLI | HLI_INC | HLI_DEC | BCI | DEI | A16I | A8I | CI
  deriving Repr, DecidableEq

/-- instructions/load.rs LoadWordTarget. -/
inductive LoadWordTarget where
  | HL | BC | DE | SP | A16I
  deriving Repr, DecidableEq

/-- instructions/load.rs LoadWordSource. -/
inductive LoadWordSource where
  | D16 | SP | HL
  deriving Repr, DecidableEq

/-- instructions/load.rs LoadType. -/
inductive LoadType where
  | Byte (target : LoadByteTarget) (source : LoadByteSource)
  | Word (target : LoadWordTarget) (source : LoadWordSource)
  deriving Repr, DecidableEq

namespace LoadByteTarget

/-- LoadByteTarget::from_upper_bits (bits 5-3 of the opcode). -/
def from_upper_bits (bits : Nat) : Option LoadByteTarget :=
  match (bits >>> 3) &&& 0x07 with
  | 0 => some .B
  | 1 => some .C
  | 2 => some .D
  | 3 => some .E
  | 4 => some .H
  | 5 => some .L
  | 6 => some .HLI
  | _ => some .A

end LoadByteTarget

namespace LoadByteSource

/-- LoadByteSource::from_lower_bits (bits 2-0 of the opcode). -/
def from_lower_bits (bits : Nat) : Option LoadByteSource :=
  match bits &&& 0x07 with
  | 0 => some .B
  | 1 => some .C
  | 2 => some .D
  | 3 => some .E
  | 4 => some .H
  | 5 => some .L
  | 6 => some .HLI
  | _ => some .A

end LoadByteSource

namespace LoadWordTarget

/-- LoadWordTarget::from_bits (bits 5-4 of the opcode). -/
def from_bits (bits : Nat) : Option LoadWordTarget :=
  match (bits >>> 4) &&& 0x03 with
  | 0 => some .BC
  | 1 => some .DE
  | 2 => some .HL
  | _ => some .SP

end LoadWordTarget

/-- instructions/targets.rs IncDecTarget. -/
inductive IncDecTarget where
  | Reg8 (r : Register8)
  | Reg16 (r : Register16)
  | HLI
  deriving Repr, DecidableEq

/-- instructions/targets.rs PrefixTarget (operands of CB instructions). -/
inductive PrefixTarget where
  | A | B | C | D | E | H | L | HLI
  deriving Repr, DecidableEq

namespace PrefixTarget

/-- PrefixTarget::to_register8: none exactly on the (HL) operand. -/
def to_register8 : PrefixTarget → Option Register8
  | .A => some .A
  | .B => some .B
  | .C => some .C
  | .D => some .D
  | .E => some .E
  | .H => some .H
  | .L => some .L
  | .HLI => none

end PrefixTarget

/-- instructions/mod.rs Instruction. STOP appears among the match arms of
CPU::execute (cpu.rs) and is included; no decoder produces it. -/
inductive Instruction where
  | ADD (t : ArithmeticTarget)
  | ADC (t : ArithmeticTarget)
  | SUB (t : ArithmeticTarget)
  | SBC (t : ArithmeticTarget)
  | AND (t : ArithmeticTarget)
  | OR (t : ArithmeticTarget)
  | XOR (t : ArithmeticTarget)
  | CP (t : ArithmeticTarget)
  | JP (test : JumpTest)
  | JR (test : JumpTest)
  | CALL (test : JumpTest)
  | RET (test : JumpTest)
  | RETI
  | RST (vec : Nat)
  | LD (ty : LoadType)
  | POP (t : StackTarget)
  | PUSH (t : StackTarget)
  | INC (t : IncDecTarget)
  | DEC (t : IncDecTarget)
  | RLC (t : PrefixTarget)
  | RRC (t : PrefixTarget)
  | RL (t : PrefixTarget)
  | RR (t : PrefixTarget)
  | SLA (t : PrefixTarget)
  | SRA (t : PrefixTarget)
  | SWAP (t : PrefixTarget)
  | SRL (t : PrefixTarget)
  | BIT (bit : Nat) (t : PrefixTarget)
  | RES (bit : Nat) (t : PrefixTarget)
  | SET (bit : Nat) (t : PrefixTarget)
  | NOP
  | STOP
  | HALT
  | DI
  | EI
  | RLCA
  | RRCA
  | RLA
  | RRA
  | DAA
  | CPL
  | SCF
  | CCF
  | ADDHL (r : Register16)
  | ADDSP
  | LDHLSP
  | JP_HL
  deriving Repr, DecidableEq

/-! ## Instruction decoders (instructions/decode/) -/

namespace Decode

/-- decode/control_flow.rs decode: basic control, rotates on A,
miscellaneous arithmetic, jumps, calls, returns and restarts. -/
def control_flow (byte : Nat) : Option Instruction :=
  match byte with
  | 0x00 => some .NOP
  | 0x76 => some .HALT
  | 0xF3 => some .DI
  | 0xFB => some .EI
  | 0x07 => some .RLCA
  | 0x0F => some .RRCA
  | 0x17 => some .RLA
  | 0x1F => some .RRA
  | 0x27 => some .DAA
  | 0x2F => some .CPL
  | 0x37 => some .SCF
  | 0x3F => some .CCF
  | 0xC3 => some (.JP .Always)
  | 0xC2 => (JumpTest.from_bits 0xC2).map .JP
  | 0xCA => (JumpTest.from_bits 0xCA).map .JP
  | 0xD2 => (JumpTest.from_bits 0xD2).map .JP
  | 0xDA => (JumpTest.from_bits 0xDA).map .JP
  | 0xE9 => some .JP_HL
  | 0x18 => some (.JR .Always)
  | 0x20 => (JumpTest.from_bits 0x20).map .JR
  | 0x28 => (JumpTest.from_bits 0x28).map .JR
  | 0x30 => (JumpTest.from_bits 0x30).map .JR
  | 0x38 => (JumpTest.from_bits 0x38).map .JR
  | 0xCD => some (.CALL .Always)
  | 0xC4 => (JumpTest.from_bits 0xC4).map .CALL
  | 0xCC => (JumpTest.from_bits 0xCC).map .CALL
  | 0xD4 => (JumpTest.from_bits 0xD4).map .CALL
  | 0xDC => (JumpTest.from_bits 0xDC).map .CALL
  | 0xC9 => some (.RET .Always)
  | 0xC0 => (JumpTest.from_bits 0xC0).map .RET
  | 0xC8 => (JumpTest.from_bits 0xC8).map .RET
  | 0xD0 => (JumpTest.from_bits 0xD0).map .RET
  | 0xD8 => (JumpTest.from_bits 0xD8).map .RET
  | 0xD9 => some .RETI
  | 0xC7 => some (.RST 0x00)
  | 0xCF => some (.RST 0x08)
  | 0xD7 => some (.RST 0x10)
  | 0xDF => some (.RST 0x18)
  | 0xE7 => some (.RST 0x20)
  | 0xEF => some (.RST 0x28)
  | 0xF7 => some (.RST 0x30)
  | 0xFF => some (.RST 0x38)
  | _ => none

/-- decode/incdec.rs decode. -/
def incdec (byte : Nat) : Option Instruction :=
  match byte with
  | 0x04 => some (.INC (.Reg8 .B))
  | 0x0C => some (.INC (.Reg8 .C))
  | 0x14 => some (.INC (.Reg8 .D))
  | 0x1C => some (.INC (.Reg8 .E))
  | 0x24 => some (.INC (.Reg8 .H))
  | 0x2C => some (.INC (.Reg8 .L))
  | 0x3C => some (.INC (.Reg8 .A))
  | 0x03 => some (.INC (.Reg16 .BC))
  | 0x13 => some (.INC (.Reg16 .DE))
  | 0x23 => some (.INC (.Reg16 .HL))
  | 0x33 => some (.INC (.Reg16 .SP))
  | 0x05 => some (.DEC (.Reg8 .B))
  | 0x0D => some (.DEC (.Reg8 .C))
  | 0x15 => some (.DEC (.Reg8 .D))
  | 0x1D => some (.DEC (.Reg8 .E))
  | 0x25 => some (.DEC (.Reg8 .H))
  | 0x2D => some (.DEC (.Reg8 .L))
  | 0x3D => some (.DEC (.Reg8 .A))
  | 0x0B => some (.DEC (.Reg16 .BC))
  | 0x1B => some (.DEC (.Reg16 .DE))
  | 0x2B => some (.DEC (.Reg16 .HL))
  | 0x3B => some (.DEC (.Reg16 .SP))
  | _ => none

/-- decode/arithmetic.rs decode: the register-operand ALU families
0x80-0xBF (the (HL) column, bit pattern 6, decodes to none). -/
def arithmetic (byte : Nat) : Option Instruction :=
  if 0x80 ≤ byte ∧ byte ≤ 0x87 ∧ byte ≠ 0x86 then
    (ArithmeticTarget.from_lower_bits byte).map .ADD
  else if 0x88 ≤ byte ∧ byte ≤ 0x8F then (ArithmeticTarget.from_lower_bits byte).map .ADC
  else if 0x90 ≤ byte ∧ byte ≤ 0x97 then (ArithmeticTarget.from_lower_bits byte).map .SUB
  else if 0x98 ≤ byte ∧ byte ≤ 0x9F then (ArithmeticTarget.from_lower_bits byte).map .SBC
  else if 0xA0 ≤ byte ∧ byte ≤ 0xA7 then (ArithmeticTarget.from_lower_bits byte).map .AND
  else if 0xA8 ≤ byte ∧ byte ≤ 0xAF then (ArithmeticTarget.from_lower_bits byte).map .XOR
  else if 0xB0 ≤ byte ∧ byte ≤ 0xB7 then (ArithmeticTarget.from_lower_bits byte).map .OR
  else if 0xB8 ≤ byte ∧ byte ≤ 0xBF then (ArithmeticTarget.from_lower_bits byte).map .CP
  else none

/-- decode/arithmetic16.rs decode. -/
def arithmetic16 (byte : Nat) : Option Instruction :=
  match byte with
  | 0x09 => some (.ADDHL .BC)
  | 0x19 => some (.ADDHL .DE)
  | 0x29 => some (.ADDHL .HL)
  | 0x39 => some (.ADDHL .SP)
  | 0xE8 => some .ADDSP
  | 0xF8 => some .LDHLSP
  | 0xF9 => some (.LD (.Word .SP .HL))
  | _ => none

/-- decode/load.rs decode_register_load (the 0x40-0x7F block). -/
def register_load (byte : Nat) : Option Instruction := do
  let dst ← LoadByteTarget.from_upper_bits byte
  let src ← LoadByteSource.from_lower_bits byte
  pure (.LD (.Byte dst src))

/-- decode/load.rs decode. -/
def load (byte : Nat) : Option Instruction :=
  if 0x40 ≤ byte ∧ byte ≤ 0x7F ∧ byte ≠ 0x76 then register_load byte
  else match byte with
  | 0x06 => some (.LD (.Byte .B .D8))
  | 0x0E => some (.LD (.Byte .C .D8))
  | 0x16 => some (.LD (.Byte .D .D8))
  | 0x1E => some (.LD (.Byte .E .D8))
  | 0x26 => some (.LD (.Byte .H .D8))
  | 0x2E => some (.LD (.Byte .L .D8))
  | 0x3E => some (.LD (.Byte .A .D8))
  | 0x36 => some (.LD (.Byte .HLI .D8))
  | 0x01 => (LoadWordTarget.from_bits 0x01).map (fun dst => .LD (.Word dst .D16))
  | 0x11 => (LoadWordTarget.from_bits 0x11).map (fun dst => .LD (.Word dst .D16))
  | 0x21 => (LoadWordTarget.from_bits 0x21).map (fun dst => .LD (.Word dst .D16))
  | 0x31 => (LoadWordTarget.from_bits 0x31).map (fun dst => .LD (.Word dst .D16))
  | 0x0A => some (.LD (.Byte .A .BCI))
  | 0x02 => some (.LD (.Byte .BCI .A))
  | 0x08 => some (.LD (.Word .A16I .SP))
  | 0x22 => some (.LD (.Byte .HLI_INC .A))
  | 0x32 => some (.LD (.Byte .HLI_DEC .A))
  | 0x1A => some (.LD (.Byte .A .DEI))
  | 0x2A => some (.LD (.Byte .A .HLI_INC))
  | 0x3A => some (.LD (.Byte .A .HLI_DEC))
  | 0x12 => some (.LD (.Byte .DEI .A))
  | 0xEA => some (.LD (.Byte .A16I .A))
  | 0xFA => some (.LD (.Byte .A .A16I))
  | 0xE0 => some (.LD (.Byte .A8I .A))
  | 0xF0 => some (.LD (.Byte .A .A8I))
  | 0xE2 => some (.LD (.Byte .CI .A))
  | 0xF2 => some (.LD (.Byte .A .CI))
  | _ => none

/-- decode/stack.rs decode. -/
def stack (byte : Nat) : Option Instruction :=
  if byte = 0xC5 ∨ byte = 0xD5 ∨ byte = 0xE5 ∨ byte = 0xF5 then
    (StackTarget.from_bits byte).map .PUSH
  else if byte = 0xC1 ∨ byte = 0xD1 ∨ byte = 0xE1 ∨ byte = 0xF1 then
    (StackTarget.from_bits byte).map .POP
  else none

/-- decode/prefix.rs decode_prefix_target (lower 3 bits of the opcode). -/
def cbTarget (bits : Nat) : Option PrefixTarget :=
  match bits &&& 0x07 with
  | 0 => some .B
  | 1 => some .C
  | 2 => some .D
  | 3 => some .E
  | 4 => some .H
  | 5 => some .L
  | 6 => some .HLI
  | _ => some .A

/-- decode/prefix.rs decode: the CB-prefixed table, keyed by the opcode's
upper bits, with the bit index for BIT/RES/SET in bits 5-3. -/
def cb (byte : Nat) : Option Instruction := do
  let target ← cbTarget (byte &&& 0x07)
  if byte ≤ 0x07 then pure (.RLC target)
  else if byte ≤ 0x0F then pure (.RRC target)
  else if byte ≤ 0x17 then pure (.RL target)
  else if byte ≤ 0x1F then pure (.RR target)
  else if byte ≤ 0x27 then pure (.SLA target)
  else if byte ≤ 0x2F then pure (.SRA target)
  else if byte ≤ 0x37 then pure (.SWAP target)
  else if byte ≤ 0x3F then pure (.SRL target)
  else if byte ≤ 0x7F then pure (.BIT ((byte >>> 3) &&& 0x07) target)
  else if byte ≤ 0xBF then pure (.RES ((byte >>> 3) &&& 0x07) target)
  else pure (.SET ((byte >>> 3) &&& 0x07) target)

/-- decode/mod.rs decode_not_prefixed: each decoder tried in order. -/
def not_prefixed (byte : Nat) : Option Instruction :=
  (control_flow byte).orElse fun _ =>
  (incdec byte).orElse fun _ =>
  (arithmetic byte).orElse fun _ =>
  (arithmetic16 byte).orElse fun _ =>
  (load byte).orElse fun _ =>
  stack byte

end Decode

/-- decode/mod.rs decode_instruction (also Instruction::from_byte). -/
def decode_instruction (byte : Nat) (prefixed : Bool) : Option Instruction :=
  if prefixed then Decode.cb byte else Decode.not_prefixed byte

/-! ## Flag helpers (flag_helpers.rs) -/

/-- u8 wrapping subtraction. -/
def wsub8v (a b : Nat) : Nat := (a + (256 - b % 256)) % 256

namespace fh

/-- half_carry_add: carry out of bit 3 of the low nibbles. -/
def half_carry_add (a b : Nat) : Bool := (a &&& 0x0F) + (b &&& 0x0F) > 0x0F

/-- half_carry_add_with_carry. -/
def half_carry_add_with_carry (a b : Nat) (carry_in : Bool) : Bool :=
  (a &&& 0x0F) + (b &&& 0x0F) + (if carry_in then 1 else 0) > 0x0F

/-- half_borrow_sub. -/
def half_borrow_sub (a b : Nat) : Bool := (a &&& 0x0F) < (b &&& 0x0F)

/-- half_borrow_sub_with_carry (widened so the nibble sum cannot wrap). -/
def half_borrow_sub_with_carry (a b : Nat) (carry_in : Bool) : Bool :=
  (a &&& 0x0F) < (b &&& 0x0F) + (if carry_in then 1 else 0)

/-- half_carry_inc: H set exactly when the low nibble is 0x0F. -/
def half_carry_inc (v : Nat) : Bool := v &&& 0x0F = 0x0F

/-- half_borrow_dec: H set exactly when the low nibble is 0x00. -/
def half_borrow_dec (v : Nat) : Bool := v &&& 0x0F = 0x00

/-- add_sp_signed: SP plus the signed immediate, u16-wrapping (the
source casts i8 -> i16 -> u16 and wrapping_adds). -/
def add_sp_signed (sp : Nat) (off : Int) : Nat := (sp + i16ToU16 off) % 65536

/-- half_carry_add_sp: H from the low nibbles of SP and of the immediate
reinterpreted as an unsigned byte. -/
def half_carry_add_sp (sp : Nat) (off : Int) : Bool :=
  (sp &&& 0x0F) + (i8ToByte off &&& 0x0F) > 0x0F

/-- carry_add_sp: C from the low byte of SP plus the immediate
reinterpreted as an unsigned byte. -/
def carry_add_sp (sp : Nat) (off : Int) : Bool :=
  (sp &&& 0xFF) + i8ToByte off > 0xFF

end fh

/-! ## CPU execution engine (cpu.rs)

Fallible operand reads (the unchecked u16 additions of read_next_byte,
read_next_word and the CB second-byte fetch) and the unknown-opcode panic
of CPU::step are modelled with Option: none means the source panics. -/

/-- cpu.rs CPU. -/
structure CPU where
  registers : Registers
  bus : MemoryBus
  is_halted : Bool
  interrupts_enabled : Bool
  ei_pending : Bool
  halt_bug : Bool

namespace CPU

/-- read_next_byte: the byte at PC + 1, the addition unchecked. -/
def read_next_byte (c : CPU) : Option Nat :=
  (checkedAdd16 c.registers.pc 1).map c.bus.read_byte

/-- read_next_word: little-endian word at PC + 1 / PC + 2, unchecked. -/
def read_next_word (c : CPU) : Option Nat := do
  let a1 ← checkedAdd16 c.registers.pc 1
  let a2 ← checkedAdd16 c.registers.pc 2
  pure ((c.bus.read_byte a2 <<< 8) ||| c.bus.read_byte a1)

/-- get_arithmetic_target (the D8 case reads PC + 1 with wrapping_add). -/
def get_arithmetic_target (c : CPU) : ArithmeticTarget → Nat
  | .A => c.registers.a
  | .B => c.registers.b
  | .C => c.registers.c
  | .D => c.registers.d
  | .E => c.registers.e
  | .H => c.registers.h
  | .L => c.registers.l
  | .HLI => c.bus.read_byte c.registers.get_hl
  | .D8 => c.bus.read_byte (wadd16 c.registers.pc 1)

/-- set_arithmetic_flags. -/
def set_arithmetic_flags (c : CPU) (result : Nat) (subtract carry half_carry : Bool) : CPU :=
  { c with registers := { c.registers with
      f := { zero := result = 0, subtract := subtract, carry := carry,
             half_carry := half_carry } } }

/-- set_logic_flags. -/
def set_logic_flags (c : CPU) (result : Nat) (half_carry : Bool) : CPU :=
  { c with registers := { c.registers with
      f := { zero := result = 0, subtract := false, carry := false,
             half_carry := half_carry } } }

/-- CPU::add (A + value): wrapped result and all four flags. -/
def add (c : CPU) (value : Nat) : CPU × Nat :=
  let new_value := (c.registers.a + value) % 256
  let did_overflow := c.registers.a + value ≥ 256
  let half_carry := fh.half_carry_add c.registers.a value
  (c.set_arithmetic_flags new_value false did_overflow half_carry, new_value)

/-- CPU::adc (A + value + carry-in). -/
def adc (c : CPU) (value : Nat) : CPU × Nat :=
  let carry_in := c.registers.f.carry
  let cin := if carry_in then 1 else 0
  let temp := (c.registers.a + value) % 256
  let overflow1 := c.registers.a + value ≥ 256
  let new_value := (temp + cin) % 256
  let overflow2 := temp + cin ≥ 256
  let half_carry := fh.half_carry_add_with_carry c.registers.a value carry_in
  (c.set_arithmetic_flags new_value false (overflow1 ∨ overflow2) half_carry, new_value)

/-- CPU::sub (A - value). -/
def sub (c : CPU) (value : Nat) : CPU × Nat :=
  let new_value := wsub8v c.registers.a value
  let did_overflow := c.registers.a < value
  let half_carry := fh.half_borrow_sub c.registers.a value
  (c.set_arithmetic_flags new_value true did_overflow half_carry, new_value)

/-- CPU::sbc (A - value - carry-in). -/
def sbc (c : CPU) (value : Nat) : CPU × Nat :=
  let carry_in := c.registers.f.carry
  let cin := if carry_in then 1 else 0
  let temp := wsub8v c.registers.a value
  let overflow1 := c.registers.a < value
  let new_value := wsub8v temp cin
  let overflow2 := temp < cin
  let half_carry := fh.half_borrow_sub_with_carry c.registers.a value carry_in
  (c.set_arithmetic_flags new_value true (overflow1 ∨ overflow2) half_carry, new_value)

/-- CPU::or. -/
def or (c : CPU) (value : Nat) : CPU × Nat :=
  let new_value := c.registers.a ||| value
  (c.set_logic_flags new_value false, new_value)

/-- CPU::xor. -/
def xor (c : CPU) (value : Nat) : CPU × Nat :=
  let new_value := c.registers.a ^^^ value
  (c.set_logic_flags new_value false, new_value)

/-- CPU::cp: subtraction flags without modifying A. -/
def cp (c : CPU) (value : Nat) : CPU :=
  let result := wsub8v c.registers.a value
  let did_overflow := c.registers.a < value
  { c with registers := { c.registers with
      f := { zero := result = 0, subtract := true, carry := did_overflow,
             half_carry := fh.half_borrow_sub c.registers.a value } } }

/-- CPU::inc_8bit (carry untouched). -/
def inc_8bit (c : CPU) (value : Nat) : CPU × Nat :=
  let new_value := (value + 1) % 256
  let f := { c.registers.f with
             zero := (new_value = 0)
             subtract := false
             half_carry := fh.half_carry_inc value }
  ({ c with registers := { c.registers with f := f } }, new_value)

/-- CPU::dec_8bit (carry untouched). -/
def dec_8bit (c : CPU) (value : Nat) : CPU × Nat :=
  let new_value := wsub8v value 1
  let f := { c.registers.f with
             zero := (new_value = 0)
             subtract := true
             half_carry := fh.half_borrow_dec value }
  ({ c with registers := { c.registers with f := f } }, new_value)

/-- CPU::inc_16bit (no flags). -/
def inc_16bit (c : CPU) (reg : Register16) : CPU :=
  match reg with
  | .SP => { c with registers := { c.registers with sp := wadd16 c.registers.sp 1 } }
  | _ =>
      let value := c.registers.read_16bit reg
      { c with registers := c.registers.write_16bit reg (wadd16 value 1) }

/-- CPU::dec_16bit (no flags). -/
def dec_16bit (c : CPU) (reg : Register16) : CPU :=
  match reg with
  | .SP => { c with registers := { c.registers with sp := wsub16 c.registers.sp 1 } }
  | _ =>
      let value := c.registers.read_16bit reg
      { c with registers := c.registers.write_16bit reg (wsub16 value 1) }

/-- CPU::should_jump. -/
def should_jump (c : CPU) : JumpTest → Bool
  | .NotZero => ¬c.registers.f.zero
  | .NotCarry => ¬c.registers.f.carry
  | .Zero => c.registers.f.zero
  | .Carry => c.registers.f.carry
  | .Always => true

/-- CPU::jump (JP): the immediate word when taken, else PC + 3. -/
def jump (c : CPU) (sj : Bool) : Option Nat :=
  if sj then c.read_next_word else some (wadd16 c.registers.pc 3)

/-- CPU::jump_relative (JR): the offset byte at PC + 1 is always read;
the target is PC + 2 plus the sign-extended offset, mod 2^16 (the
source's i16 cast chain is two's-complement arithmetic). -/
def jump_relative (c : CPU) (sj : Bool) : Option Nat := do
  let offset_byte ← c.read_next_byte
  let off := byteToI8 offset_byte
  pure (if sj then i16ToU16 ((wadd16 c.registers.pc 2 : Nat) + off) else wadd16 c.registers.pc 2)

/-- CPU::read_stack_target. -/
def read_stack_target (c : CPU) : StackTarget → Nat
  | .BC => c.registers.get_bc
  | .DE => c.registers.get_de
  | .HL => c.registers.get_hl
  | .AF => c.registers.get_af

/-- CPU::write_stack_target. -/
def write_stack_target (c : CPU) (t : StackTarget) (value : Nat) : CPU :=
  match t with
  | .BC => { c with registers := c.registers.set_bc value }
  | .DE => { c with registers := c.registers.set_de value }
  | .HL => { c with registers := c.registers.set_hl value }
  | .AF => { c with registers := c.registers.set_af value }

/-- CPU::push: SP decremented before each byte write, high byte first. -/
def push (c : CPU) (value : Nat) : CPU :=
  let sp1 := wsub16 c.registers.sp 1
  let bus1 := c.bus.write_byte sp1 ((value &&& 0xFF00) >>> 8)
  let sp2 := wsub16 sp1 1
  let bus2 := bus1.write_byte sp2 (value &&& 0xFF)
  { c with bus := bus2, registers := { c.registers with sp := sp2 } }

/-- CPU::pop: low byte first, SP incremented after each read. -/
def pop (c : CPU) : CPU × Nat :=
  let lsb := c.bus.read_byte c.registers.sp
  let sp1 := wadd16 c.registers.sp 1
  let msb := c.bus.read_byte sp1
  let sp2 := wadd16 sp1 1
  ({ c with registers := { c.registers with sp := sp2 } }, (msb <<< 8) ||| lsb)

/-- CPU::call: push the return address, then read the target word. -/
def call (c : CPU) (sj : Bool) : Option (CPU × Nat) :=
  let next_pc := wadd16 c.registers.pc 3
  if sj then
    let c := c.push next_pc
    (c.read_next_word).map fun w => (c, w)
  else some (c, next_pc)

/-- CPU::return_. -/
def return_op (c : CPU) (sj : Bool) : CPU × Nat :=
  if sj then c.pop else (c, wadd16 c.registers.pc 1)

/-- CPU::read_prefix_target. -/
def read_prefix_target (c : CPU) (t : PrefixTarget) : Nat :=
  match t.to_register8 with
  | some reg => c.registers.read_8bit reg
  | none => c.bus.read_byte c.registers.get_hl

/-- CPU::write_prefix_target. -/
def write_prefix_target (c : CPU) (t : PrefixTarget) (value : Nat) : CPU :=
  match t.to_register8 with
  | some reg => { c with registers := c.registers.write_8bit reg value }
  | none => { c with bus := c.bus.write_byte c.registers.get_hl value }

/-- CPU::get_prefix_cycles: 8 T-cycles on a register operand, 16 on (HL). -/
def get_prefix_cycles (t : PrefixTarget) : Nat :=
  match t.to_register8 with
  | some _ => 8
  | none => 16

/-- CPU::read_byte_source; the (HL+)/(HL-) modes also move HL, so the
possibly-updated CPU is returned with the value. -/
def read_byte_source (c : CPU) : LoadByteSource → Option (CPU × Nat)
  | .A => some (c, c.registers.a)
  | .B => some (c, c.registers.b)
  | .C => some (c, c.registers.c)
  | .D => some (c, c.registers.d)
  | .E => some (c, c.registers.e)
  | .H => some (c, c.registers.h)
  | .L => some (c, c.registers.l)
  | .D8 => (c.read_next_byte).map fun v => (c, v)
  | .HLI => some (c, c.bus.read_byte c.registers.get_hl)
  | .BCI => some (c, c.bus.read_byte c.registers.get_bc)
  | .DEI => some (c, c.bus.read_byte c.registers.get_de)
  | .HLI_INC =>
      let value := c.bus.read_byte c.registers.get_hl
      some ({ c with registers := c.registers.set_hl (wadd16 c.registers.get_hl 1) }, value)
  | .HLI_DEC =>
      let value := c.bus.read_byte c.registers.get_hl
      some ({ c with registers := c.registers.set_hl (wsub16 c.registers.get_hl 1) }, value)
  | .A16I => (c.read_next_word).map fun address => (c, c.bus.read_byte address)
  | .A8I => (c.read_next_byte).map fun offset => (c, c.bus.read_byte (0xFF00 + offset))
  | .CI => some (c, c.bus.read_byte (0xFF00 + c.registers.c))

/-- CPU::write_byte_target. -/
def write_byte_target (c : CPU) (t : LoadByteTarget) (value : Nat) : Option CPU :=
  match t with
  | .A => some { c with registers := { c.registers with a := value } }
  | .B => some { c with registers := { c.registers with b := value } }
  | .C => some { c with registers := { c.registers with c := value } }
  | .D => some { c with registers := { c.registers with d := value } }
  | .E => some { c with registers := { c.registers with e := value } }
  | .H => some { c with registers := { c.registers with h := value } }
  | .L => some { c with registers := { c.registers with l := value } }
  | .HLI => some { c with bus := c.bus.write_byte c.registers.get_hl value }
  | .DEI => some { c with bus := c.bus.write_byte c.registers.get_de value }
  | .BCI => some { c with bus := c.bus.write_byte c.registers.get_bc value }
  | .A16I =>
      (c.read_next_word).map fun address => { c with bus := c.bus.write_byte address value }
  | .A8I =>
      (c.read_next_byte).map fun offset =>
        { c with bus := c.bus.write_byte (0xFF00 + offset) value }
  | .HLI_INC =>
      let address := c.registers.get_hl
      let c := { c with bus := c.bus.write_byte address value }
      some { c with registers := c.registers.set_hl (wadd16 address 1) }
  | .HLI_DEC =>
      let address := c.registers.get_hl
      let c := { c with bus := c.bus.write_byte address value }
      some { c with registers := c.registers.set_hl (wsub16 address 1) }
  | .CI => some { c with bus := c.bus.write_byte (0xFF00 + c.registers.c) value }

/-- CPU::get_load_byte_pc_increment. -/
def get_load_byte_pc_increment (target : LoadByteTarget) (source : LoadByteSource) : Nat :=
  match target, source with
  | .A16I, _ => 3
  | .A8I, _ => 2
  | _, .A16I => 3
  | _, .A8I => 2
  | _, .D8 => 2
  | _, _ => 1

/-- CPU::get_load_byte_cycles: source base cost plus target extra cost. -/
def get_load_byte_cycles (target : LoadByteTarget) (source : LoadByteSource) : Nat :=
  let base : Nat :=
    match source with
    | .D8 => 8
    | .A16I => 16
    | .A8I => 12
    | .HLI => 8
    | .HLI_INC => 8
    | .HLI_DEC => 8
    | .BCI => 8
    | .DEI => 8
    | .CI => 8
    | _ => 4
  let extra : Nat :=
    match target with
    | .HLI => 4
    | .HLI_INC => 4
    | .HLI_DEC => 4
    | .BCI => 4
    | .DEI => 4
    | .CI => 4
    | .A8I => 8
    | .A16I => 12
    | _ => 0
  base + extra

/-- Arithmetic-family operand length and cycle cost (the per-arm match in
CPU::execute: D8 costs (2, 8), (HL) costs (1, 8), registers (1, 4)). -/
def arith_pc_cycles : ArithmeticTarget → Nat × Nat
  | .D8 => (2, 8)
  | .HLI => (1, 8)
  | _ => (1, 4)

/-- Word-load length and cycle cost (the (length, cycles) match in the
LD Word arm of CPU::execute). -/
def load_word_len_cycles : LoadWordTarget → LoadWordSource → Nat × Nat
  | .A16I, _ => (3, 20)
  | _, .D16 => (3, 12)
  | _, _ => (1, 8)

/-- CPU::execute: run one decoded instruction, returning the mutated CPU,
the next PC and the T-cycle cost; none models an operand-read panic. -/
def execute (c : CPU) (instruction : Instruction) : Option (CPU × Nat × Nat) :=
  match instruction with
  | .NOP => some (c, wadd16 c.registers.pc 1, 4)
  | .STOP => some ({ c with is_halted := true }, wadd16 c.registers.pc 2, 4)
  | .HALT =>
      if ¬c.interrupts_enabled ∧ c.bus.any_interrupt_pending then
        some ({ c with halt_bug := true }, wadd16 c.registers.pc 1, 4)
      else
        some ({ c with is_halted := true }, wadd16 c.registers.pc 1, 4)
  | .DI =>
      some ({ c with interrupts_enabled := false, ei_pending := false },
            wadd16 c.registers.pc 1, 4)
  | .EI => some ({ c with ei_pending := true }, wadd16 c.registers.pc 1, 4)
  | .ADD target =>
      let value := c.get_arithmetic_target target
      let (c, new_value) := c.add value
      let c := { c with registers := { c.registers with a := new_value } }
      let (pc_inc, cycles) := arith_pc_cycles target
      some (c, wadd16 c.registers.pc pc_inc, cycles)
  | .ADC target =>
      let value := c.get_arithmetic_target target
      let (c, new_value) := c.adc value
      let c := { c with registers := { c.registers with a := new_value } }
      let (pc_inc, cycles) := arith_pc_cycles target
      some (c, wadd16 c.registers.pc pc_inc, cycles)
  | .SUB target =>
      let value := c.get_arithmetic_target target
      let (c, new_value) := c.sub value
      let c := { c with registers := { c.registers with a := new_value } }
      let (pc_inc, cycles) := arith_pc_cycles target
      some (c, wadd16 c.registers.pc pc_inc, cycles)
  | .SBC target =>
      let value := c.get_arithmetic_target target
      let (c, new_value) := c.sbc value
      let c := { c with registers := { c.registers with a := new_value } }
      let (pc_inc, cycles) := arith_pc_cycles target
      some (c, wadd16 c.registers.pc pc_inc, cycles)
  | .AND target =>
      let value := c.get_arithmetic_target target
      let a := c.registers.a &&& value
      let f : FlagsRegister :=
        { zero := (a = 0), subtract := false, half_carry := true, carry := false }
      let c := { c with registers := { c.registers with a := a, f := f } }
      let (pc_inc, cycles) := arith_pc_cycles target
      some (c, wadd16 c.registers.pc pc_inc, cycles)
  | .OR target =>
      let value := c.get_arithmetic_target target
      let (c, new_value) := c.or value
      let c := { c with registers := { c.registers with a := new_value } }
      let (pc_inc, cycles) := arith_pc_cycles target
      some (c, wadd16 c.registers.pc pc_inc, cycles)
  | .XOR target =>
      let value := c.get_arithmetic_target target
      let (c, new_value) := c.xor value
      let c := { c with registers := { c.registers with a := new_value } }
      let (pc_inc, cycles) := arith_pc_cycles target
      some (c, wadd16 c.registers.pc pc_inc, cycles)
  | .CP target =>
      let value := c.get_arithmetic_target target
      let c := c.cp value
      let (pc_inc, cycles) := arith_pc_cycles target
      some (c, wadd16 c.registers.pc pc_inc, cycles)
  | .INC target =>
      match target with
      | .Reg8 reg =>
          let value := c.registers.read_8bit reg
          let (c, new_value) := c.inc_8bit value
          let c := { c with registers := c.registers.write_8bit reg new_value }
          some (c, wadd16 c.registers.pc 1, 4)
      | .Reg16 reg => some (c.inc_16bit reg, wadd16 c.registers.pc 1, 8)
      | .HLI =>
          let address := c.registers.get_hl
          let value := c.bus.read_byte address
          let (c, new_value) := c.inc_8bit value
          let c := { c with bus := c.bus.write_byte address new_value }
          some (c, wadd16 c.registers.pc 1, 12)
  | .DEC target =>
      match target with
      | .Reg8 reg =>
          let value := c.registers.read_8bit reg
          let (c, new_value) := c.dec_8bit value
          let c := { c with registers := c.registers.write_8bit reg new_value }
          some (c, wadd16 c.registers.pc 1, 4)
      | .Reg16 reg => some (c.dec_16bit reg, wadd16 c.registers.pc 1, 8)
      | .HLI =>
          let address := c.registers.get_hl
          let value := c.bus.read_byte address
          let (c, new_value) := c.dec_8bit value
          let c := { c with bus := c.bus.write_byte address new_value }
          some (c, wadd16 c.registers.pc 1, 12)
  | .JP test =>
      let sj := c.should_jump test
      (c.jump sj).map fun next_pc => (c, next_pc, if sj then 16 else 12)
  | .JR test =>
      let sj := c.should_jump test
      (c.jump_relative sj).map fun next_pc => (c, next_pc, if sj then 12 else 8)
  | .LD (.Byte target source) => do
      let (c, source_value) ← c.read_byte_source source
      let c ← c.write_byte_target target source_value
      let cycles := get_load_byte_cycles target source
      pure (c, wadd16 c.registers.pc (get_load_byte_pc_increment target source), cycles)
  | .LD (.Word target source) => do
      let source_value ←
        match source with
        | .D16 => c.read_next_word
        | .SP => pure c.registers.sp
        | .HL => pure c.registers.get_hl
      let c ←
        match target with
        | .HL => pure { c with registers := c.registers.set_hl source_value }
        | .BC => pure { c with registers := c.registers.set_bc source_value }
        | .DE => pure { c with registers := c.registers.set_de source_value }
        | .SP => pure { c with registers := { c.registers with sp := source_value } }
        | .A16I => do
            let address ← c.read_next_word
            let bus := c.bus.write_byte address (source_value &&& 0xFF)
            let bus := bus.write_byte (wadd16 address 1) ((source_value >>> 8) &&& 0xFF)
            pure { c with bus := bus }
      let lc := load_word_len_cycles target source
      pure (c, wadd16 c.registers.pc lc.1, lc.2)
  | .PUSH t =>
      let value := c.read_stack_target t
      let c := c.push value
      some (c, wadd16 c.registers.pc 1, 16)
  | .POP t =>
      let (c, result) := c.pop
      let c := c.write_stack_target t result
      some (c, wadd16 c.registers.pc 1, 12)
  | .CALL test =>
      let sj := c.should_jump test
      (c.call sj).map fun r => (r.1, r.2, if sj then 24 else 12)
  | .RET test =>
      let sj := c.should_jump test
      let (c, next_pc) := c.return_op sj
      let cycles : Nat :=
        match test with
        | .Always => 16
        | _ => if sj then 20 else 8
      some (c, next_pc, cycles)
  | .RETI =>
      let c := { c with interrupts_enabled := true }
      let (c, v) := c.pop
      some (c, v, 16)
  | .RST vec =>
      let next_pc := wadd16 c.registers.pc 1
      let c := c.push next_pc
      some (c, vec, 16)
  | .RLCA =>
      let carry := (c.registers.a &&& 0x80) >>> 7
      let a := ((c.registers.a <<< 1) % 256) ||| carry
      let f : FlagsRegister :=
        { zero := false, subtract := false, half_carry := false, carry := (carry = 1) }
      some ({ c with registers := { c.registers with a := a, f := f } },
            wadd16 c.registers.pc 1, 4)
  | .RRCA =>
      let carry := c.registers.a &&& 0x01
      let a := (c.registers.a >>> 1) ||| (carry <<< 7)
      let f : FlagsRegister :=
        { zero := false, subtract := false, half_carry := false, carry := (carry = 1) }
      some ({ c with registers := { c.registers with a := a, f := f } },
            wadd16 c.registers.pc 1, 4)
  | .RLA =>
      let old_carry := if c.registers.f.carry then 1 else 0
      let new_carry := (c.registers.a &&& 0x80) >>> 7
      let a := ((c.registers.a <<< 1) % 256) ||| old_carry
      let f : FlagsRegister :=
        { zero := false, subtract := false, half_carry := false, carry := (new_carry = 1) }
      some ({ c with registers := { c.registers with a := a, f := f } },
            wadd16 c.registers.pc 1, 4)
  | .RRA =>
      let old_carry := if c.registers.f.carry then 1 else 0
      let new_carry := c.registers.a &&& 0x01
      let a := (c.registers.a >>> 1) ||| (old_carry <<< 7)
      let f : FlagsRegister :=
        { zero := false, subtract := false, half_carry := false, carry := (new_carry = 1) }
      some ({ c with registers := { c.registers with a := a, f := f } },
            wadd16 c.registers.pc 1, 4)
  | .DAA =>
      let a0 := c.registers.a
      let fl := c.registers.f
      let r : Nat × Bool :=
        if ¬fl.subtract then
          let adjust : Nat := if fl.half_carry ∨ (a0 &&& 0x0F) > 9 then 0x06 else 0x00
          let ac : Nat × Bool :=
            if fl.carry ∨ a0 > 0x99 then (adjust ||| 0x60, true) else (adjust, fl.carry)
          ((a0 + ac.1) % 256, ac.2)
        else
          let adjust : Nat := if fl.half_carry then 0x06 else 0x00
          let adjust : Nat := if fl.carry then adjust ||| 0x60 else adjust
          (wsub8v a0 adjust, fl.carry)
      let f := { fl with zero := (r.1 = 0), half_carry := false, carry := r.2 }
      some ({ c with registers := { c.registers with a := r.1, f := f } },
            wadd16 c.registers.pc 1, 4)
  | .CPL =>
      let a := c.registers.a ^^^ 255
      let f := { c.registers.f with subtract := true, half_carry := true }
      some ({ c with registers := { c.registers with a := a, f := f } },
            wadd16 c.registers.pc 1, 4)
  | .SCF =>
      let f := { c.registers.f with subtract := false, half_carry := false, carry := true }
      some ({ c with registers := { c.registers with f := f } }, wadd16 c.registers.pc 1, 4)
  | .CCF =>
      let f := { c.registers.f with
                 subtract := false
                 half_carry := false
                 carry := !c.registers.f.carry }
      some ({ c with registers := { c.registers with f := f } }, wadd16 c.registers.pc 1, 4)
  | .ADDHL reg =>
      let hl := c.registers.get_hl
      let value :=
        match reg with
        | .BC => c.registers.get_bc
        | .DE => c.registers.get_de
        | .HL => c.registers.get_hl
        | .SP => c.registers.sp
      let result := (hl + value) % 65536
      let carry := hl + value ≥ 65536
      let half_carry := (hl &&& 0x0FFF) + (value &&& 0x0FFF) > 0x0FFF
      let c := { c with registers := c.registers.set_hl result }
      let f := { c.registers.f with
                 subtract := false
                 half_carry := half_carry
                 carry := carry }
      some ({ c with registers := { c.registers with f := f } }, wadd16 c.registers.pc 1, 8)
  | .ADDSP => do
      let offset_byte ← c.read_next_byte
      let offset_signed := byteToI8 offset_byte
      let sp := c.registers.sp
      let result := fh.add_sp_signed sp offset_signed
      let f : FlagsRegister :=
        { zero := false
          subtract := false
          half_carry := fh.half_carry_add_sp sp offset_signed
          carry := fh.carry_add_sp sp offset_signed }
      pure ({ c with registers := { c.registers with sp := result, f := f } },
            wadd16 c.registers.pc 2, 16)
  | .LDHLSP => do
      let offset_byte ← c.read_next_byte
      let offset_signed := byteToI8 offset_byte
      let sp := c.registers.sp
      let result := fh.add_sp_signed sp offset_signed
      let f : FlagsRegister :=
        { zero := false
          subtract := false
          half_carry := fh.half_carry_add_sp sp offset_signed
          carry := fh.carry_add_sp sp offset_signed }
      let c := { c with registers := { c.registers with f := f } }
      pure ({ c with registers := c.registers.set_hl result }, wadd16 c.registers.pc 2, 12)
  | .JP_HL => some (c, c.registers.get_hl, 4)
  | .RLC t =>
      let value := c.read_prefix_target t
      let carry := (value &&& 0x80) >>> 7
      let result := ((value <<< 1) % 256) ||| carry
      let c := c.write_prefix_target t result
      let f : FlagsRegister :=
        { zero := (result = 0), subtract := false, half_carry := false, carry := (carry = 1) }
      some ({ c with registers := { c.registers with f := f } },
            wadd16 c.registers.pc 2, get_prefix_cycles t)
  | .RRC t =>
      let value := c.read_prefix_target t
      let carry := value &&& 0x01
      let result := (value >>> 1) ||| (carry <<< 7)
      let c := c.write_prefix_target t result
      let f : FlagsRegister :=
        { zero := (result = 0), subtract := false, half_carry := false, carry := (carry = 1) }
      some ({ c with registers := { c.registers with f := f } },
            wadd16 c.registers.pc 2, get_prefix_cycles t)
  | .RL t =>
      let value := c.read_prefix_target t
      let old_carry := if c.registers.f.carry then 1 else 0
      let new_carry := (value &&& 0x80) >>> 7
      let result := ((value <<< 1) % 256) ||| old_carry
      let c := c.write_prefix_target t result
      let f : FlagsRegister :=
        { zero := (result = 0), subtract := false, half_carry := false,
          carry := (new_carry = 1) }
      some ({ c with registers := { c.registers with f := f } },
            wadd16 c.registers.pc 2, get_prefix_cycles t)
  | .RR t =>
      let value := c.read_prefix_target t
      let old_carry := if c.registers.f.carry then 1 else 0
      let new_carry := value &&& 0x01
      let result := (value >>> 1) ||| (old_carry <<< 7)
      let c := c.write_prefix_target t result
      let f : FlagsRegister :=
        { zero := (result = 0), subtract := false, half_carry := false,
          carry := (new_carry = 1) }
      some ({ c with registers := { c.registers with f := f } },
            wadd16 c.registers.pc 2, get_prefix_cycles t)
  | .SLA t =>
      let value := c.read_prefix_target t
      let carry := (value &&& 0x80) >>> 7
      let result := (value <<< 1) % 256
      let c := c.write_prefix_target t result
      let f : FlagsRegister :=
        { zero := (result = 0), subtract := false, half_carry := false, carry := (carry = 1) }
      some ({ c with registers := { c.registers with f := f } },
            wadd16 c.registers.pc 2, get_prefix_cycles t)
  | .SRA t =>
      let value := c.read_prefix_target t
      let carry := value &&& 0x01
      let msb := value &&& 0x80
      let result := (value >>> 1) ||| msb
      let c := c.write_prefix_target t result
      let f : FlagsRegister :=
        { zero := (result = 0), subtract := false, half_carry := false, carry := (carry = 1) }
      some ({ c with registers := { c.registers with f := f } },
            wadd16 c.registers.pc 2, get_prefix_cycles t)
  | .SWAP t =>
      let value := c.read_prefix_target t
      let result := ((value &&& 0x0F) <<< 4) ||| ((value &&& 0xF0) >>> 4)
      let c := c.write_prefix_target t result
      let f : FlagsRegister :=
        { zero := (result = 0), subtract := false, half_carry := false, carry := false }
      some ({ c with registers := { c.registers with f := f } },
            wadd16 c.registers.pc 2, get_prefix_cycles t)
  | .SRL t =>
      let value := c.read_prefix_target t
      let carry := value &&& 0x01
      let result := value >>> 1
      let c := c.write_prefix_target t result
      let f : FlagsRegister :=
        { zero := (result = 0), subtract := false, half_carry := false, carry := (carry = 1) }
      some ({ c with registers := { c.registers with f := f } },
            wadd16 c.registers.pc 2, get_prefix_cycles t)
  | .BIT bit t =>
      let value := c.read_prefix_target t
      let result := value &&& ((1 <<< bit) % 256)
      let f := { c.registers.f with
                 zero := (result = 0)
                 subtract := false
                 half_carry := true }
      some ({ c with registers := { c.registers with f := f } },
            wadd16 c.registers.pc 2, get_prefix_cycles t)
  | .RES bit t =>
      let value := c.read_prefix_target t
      let result := value &&& (255 ^^^ ((1 <<< bit) % 256))
      let c := c.write_prefix_target t result
      some (c, wadd16 c.registers.pc 2, get_prefix_cycles t)
  | .SET bit t =>
      let value := c.read_prefix_target t
      let result := value ||| ((1 <<< bit) % 256)
      let c := c.write_prefix_target t result
      some (c, wadd16 c.registers.pc 2, get_prefix_cycles t)

/-- CPU::wake_from_halt. -/
def wake_from_halt (c : CPU) : CPU := { c with is_halted := false }

/-- CPU::handle_interrupts: with IME set and a pending source, disable
IME, push PC, clear the source's IF bit, jump to its handler and consume
the fixed 20-cycle cost; otherwise none. -/
def handle_interrupts (c : CPU) : Option (CPU × Nat) :=
  if ¬c.interrupts_enabled then none
  else
    match c.bus.interrupts.get_pending_interrupt with
    | none => none
    | some interrupt =>
        let c := { c with interrupts_enabled := false }
        let c := c.push c.registers.pc
        let sv := c.bus.interrupts.service_interrupt interrupt
        let c := { c with bus := { c.bus with interrupts := sv.1 } }
        let c := { c with registers := { c.registers with pc := sv.2 } }
        some (c, INTERRUPT_CYCLES)

/-- The deferred-EI commit at the end of CPU::step: when ei_pending is
set, clear it and enable IME. -/
def ei_commit (c : CPU) : CPU :=
  if c.ei_pending then { c with ei_pending := false, interrupts_enabled := true } else c

/-- CPU::step: wake on any pending interrupt, dispatch when IME allows,
idle while halted, else fetch (a second byte for the CB prefix, the
addition unchecked), decode, apply the one-shot HALT-bug latch, execute,
commit PC, then commit a pending deferred EI. none models a panic
(unknown opcode, or operand-address overflow). -/
def step (c : CPU) : Option (CPU × Nat) :=
  let c := if c.bus.any_interrupt_pending then c.wake_from_halt else c
  match c.handle_interrupts with
  | some r => some r
  | none =>
    if c.is_halted then some (c, 4)
    else
      let first_byte := c.bus.read_byte c.registers.pc
      let prefixed := first_byte = 0xCB
      do
        let opcode_byte ←
          if prefixed then (checkedAdd16 c.registers.pc 1).map c.bus.read_byte
          else pure first_byte
        match decode_instruction opcode_byte prefixed with
        | some instruction =>
            let c :=
              if c.halt_bug then
                { c with halt_bug := false
                         registers := { c.registers with pc := wsub16 c.registers.pc 1 } }
              else c
            let r ← c.execute instruction
            let c := { r.1 with registers := { r.1.registers with pc := r.2.1 } }
            pure (c.ei_commit, r.2.2)
        | none => none

/-- Two consecutive CPU steps (driver-level composition). -/
def step2 (c : CPU) : Option (CPU × Nat) := (c.step).bind fun r => r.1.step

/-- Three consecutive CPU steps. -/
def step3 (c : CPU) : Option (CPU × Nat) := (c.step2).bind fun r => r.1.step

end CPU

/-! ## Concrete fixture states used by witnesses and counterexamples -/

/-- A bus with the given raw memory map and IF/IE register values. -/
def mkBus (mem : Nat → Nat) (ifr ier : Nat) : MemoryBus :=
  { memory := mem, gpu := GPU.new, timer := Timer.new,
    interrupts := { interrupt_flag := ifr, interrupt_enable := ier },
    serial_output := [] }

/-- A running CPU over mkBus with the given PC and IME. -/
def mkCPU (mem : Nat → Nat) (ifr ier : Nat) (pc : Nat) (ime : Bool) : CPU :=
  { registers := { Registers.new with pc := pc }, bus := mkBus mem ifr ier,
    is_halted := false, interrupts_enabled := ime, ei_pending := false,
    halt_bug := false }

/-- EI (0xFB) in work RAM at 0xC000; VBlank requested and enabled; IME off. -/
def cpuEI : CPU :=
  mkCPU (fun a => if a = 0xC000 then 0xFB else 0) 0xE1 0x01 0xC000 false

/-- HALT (0x76) at 0xC000 followed by INC A (0x3C) at 0xC001; VBlank
requested and enabled; IME off (the HALT-bug condition). -/
def cpuHALT : CPU :=
  mkCPU (fun a => if a = 0xC000 then 0x76 else if a = 0xC001 then 0x3C else 0)
    0xE1 0x01 0xC000 false

/-- DI (0xF3) at 0xC000 with a pending-but-masked-by-IME interrupt and a
deferred EI armed. -/
def cpuDI : CPU :=
  { mkCPU (fun a => if a = 0xC000 then 0xF3 else 0) 0xE1 0x01 0xC000 false with
    ei_pending := true }

/-- IME on, VBlank requested and enabled, PC = 0x1234, SP = 0xFFFE. -/
def cpuDispatch : CPU :=
  { mkCPU (fun _ => 0) 0xE1 0x01 0x1234 true with
    registers := { Registers.new with pc := 0x1234, sp := 0xFFFE } }

/-- PC at the very top of the address space, with the IE register value
0x18 so the opcode fetched at 0xFFFF is 0x18 (JR r8, an assigned opcode
whose operand lives at PC + 1). -/
def cpuJRTop : CPU := mkCPU (fun _ => 0) 0xE0 0x18 0xFFFF false

/-- An unknown opcode (0xD3) at 0xC000, nothing pending. -/
def cpuUnknown : CPU := mkCPU (fun a => if a = 0xC000 then 0xD3 else 0) 0xE0 0 0xC000 false

/-- ADD A, d8 (0xC6) at 0xC000 with immediate 0x03 (an assigned opcode
the decoder rejects). -/
def cpuADDd8 : CPU :=
  mkCPU (fun a => if a = 0xC000 then 0xC6 else if a = 0xC001 then 0x03 else 0)
    0xE0 0 0xC000 false

/-- ADD SP, r8 (0xE8) at 0xC000 with immediate 0xF8 (-8); SP = 0x0005. -/
def cpuADDSP : CPU :=
  { mkCPU (fun a => if a = 0xC000 then 0xE8 else if a = 0xC001 then 0xF8 else 0)
      0xE0 0 0xC000 false with
    registers := { Registers.new with pc := 0xC000, sp := 0x0005 } }

/-- Timer about to take a falling edge of DIV bit 3 (TAC = enabled, the
262144 Hz select) with TIMA = 0xFF: the next tick overflows. -/
def timerOV (tma : Nat) : Timer :=
  { div := 15, tima := 0xFF, tma := tma, tac := 0b101,
    prev_timer_bit := true, overflow_delay := none }

/-- Timer whose previously sampled selected bit is 1 (DIV = 0x3FF, bit 3
frequency), so a divider write spuriously ticks. -/
def timerDIV : Timer :=
  { div := 0x3FF, tima := 0x10, tma := 0x42, tac := 0b101,
    prev_timer_bit := true, overflow_delay := none }

/-- One timer tick, keeping only the state. -/
def tickS (t : Timer) : Timer := (t.tick).1

/-! ## Theorems -/

/-- C4: a falling-edge increment that overflows TIMA (0xFF to 0x00) sets
the counter to 0 and arms a 4-tick reload countdown instead of reloading
immediately; in the bit-3-frequency scenario the counter reads 0x00 on
the 3 intermediate ticks, tick() returns true exactly on the 4th tick
after the triggering edge (loading TMA there), and on no other tick of
the episode. -/
theorem timer_overflow_defers_reload :
    (∀ t : Timer, t.overflow_delay = none → t.tima = 0xFF → t.prev_timer_bit = true →
      Timer.calculate_timer_bit { t with div := (t.div + 1) % 65536 } = false →
      t.tick = ({ t with
                  div := (t.div + 1) % 65536
                  tima := 0
                  overflow_delay := some 4
                  prev_timer_bit := false }, false)) ∧
    (∀ tma : Nat,
      ((timerOV tma).tick).2 = false ∧
      (tickS (timerOV tma)).tima = 0 ∧
      (tickS (timerOV tma)).overflow_delay = some 4 ∧
      ((tickS (timerOV tma)).tick).2 = false ∧
      (tickS (tickS (timerOV tma))).tima = 0 ∧
      ((tickS (tickS (timerOV tma))).tick).2 = false ∧
      (tickS (tickS (tickS (timerOV tma)))).tima = 0 ∧
      ((tickS (tickS (tickS (timerOV tma)))).tick).2 = false ∧
      (tickS (tickS (tickS (tickS (timerOV tma))))).tima = 0 ∧
      ((tickS (tickS (tickS (tickS (timerOV tma))))).tick).2 = true ∧
      (tickS (tickS (tickS (tickS (tickS (timerOV tma)))))).tima = tma ∧
      (tickS (tickS (tickS (tickS (tickS (timerOV tma)))))).overflow_delay = none ∧
      ((tickS (tickS (tickS (tickS (tickS (timerOV tma)))))).tick).2 = false) := by
  constructor
  · intro t h1 h2 h3 h4
    have h4' : ∀ ti pb od,
        Timer.calculate_timer_bit
          { div := (t.div + 1) % 65536, tima := ti, tma := t.tma, tac := t.tac,
            prev_timer_bit := pb, overflow_delay := od } = false := by
      intro ti pb od
      simp only [Timer.calculate_timer_bit, Timer.is_timer_enabled,
        Timer.get_timer_bit_position] at h4 ⊢
      exact h4
    simp only [Timer.tick, Timer.update_overflow_delay, Timer.increment_tima,
      Timer.handle_falling_edge_and_update_prev, h1, h2, h3]
    rw [h4' 255 true none]
    simp [Timer.TIMA_OVERFLOW_RELOAD_DELAY]
  · intro tma
    refine ⟨?_, ?_, ?_, ?_, ?_, ?_, ?_, ?_, ?_, ?_, ?_, ?_, ?_⟩ <;>
      simp [tickS, Timer.tick, Timer.update_overflow_delay, Timer.calculate_timer_bit,
        Timer.is_timer_enabled, Timer.get_timer_bit_position,
        Timer.handle_falling_edge_and_update_prev, Timer.increment_tima, timerOV,
        Timer.TIMA_OVERFLOW_RELOAD_DELAY]

/-- Witness for the general conjunct of C4's theorem at the concrete
timer timerOV 0x42. -/
theorem timer_overflow_defers_reload_witness :
    (timerOV 0x42).tick =
      ({ timerOV 0x42 with
         div := 16
         tima := 0
         overflow_delay := some 4
         prev_timer_bit := false }, false) :=
  timer_overflow_defers_reload.1 (timerOV 0x42) rfl rfl rfl (by decide)

/-- C5: a divider-register write resets the internal 16-bit counter to 0
and immediately re-evaluates the falling-edge condition under the current
control register: the recomputed selected bit is always 0, so when the
previously sampled bit was 1 the 8-bit counter is incremented by the
write itself, with overflow handled exactly as on a normal tick (counter
to 0, 4-tick reload armed). -/
theorem write_div_resets_and_can_tick (t : Timer) (h : t.tima < 256) :
    (t.write_div).div = 0 ∧
    Timer.calculate_timer_bit { t with div := 0 } = false ∧
    (t.write_div).prev_timer_bit = false ∧
    (t.write_div).tima =
      (if t.prev_timer_bit then (if t.tima = 255 then 0 else t.tima + 1) else t.tima) ∧
    (t.write_div).overflow_delay =
      (if t.prev_timer_bit ∧ t.tima = 255 then some 4 else t.overflow_delay) ∧
    (t.write_div).tma = t.tma ∧ (t.write_div).tac = t.tac := by
  have hb0 : Timer.calculate_timer_bit { t with div := 0 } = false := by
    simp [Timer.calculate_timer_bit, Nat.zero_shiftRight]
  have hwd : t.write_div =
      { t with
        div := 0
        tima := if t.prev_timer_bit then (if t.tima = 255 then 0 else t.tima + 1) else t.tima
        overflow_delay :=
          if t.prev_timer_bit ∧ t.tima = 255 then some 4 else t.overflow_delay
        prev_timer_bit := false } := by
    simp only [Timer.write_div, Timer.handle_falling_edge_and_update_prev, hb0]
    by_cases hp : t.prev_timer_bit
    · by_cases h255 : t.tima = 255
      · simp [hp, h255, Timer.increment_tima, Timer.TIMA_OVERFLOW_RELOAD_DELAY]
      · have h2 : ¬(t.tima + 1 ≥ 256) := by omega
        have h3 : t.tima + 1 < 256 := by omega
        simp [hp, h255, Timer.increment_tima, h2, Nat.mod_eq_of_lt h3]
    · simp [hp]
  exact ⟨by rw [hwd], hb0, by rw [hwd], by rw [hwd], by rw [hwd], by rw [hwd], by rw [hwd]⟩

/-- Witness for C5's theorem at the concrete timer timerDIV. -/
theorem write_div_resets_and_can_tick_witness :
    (timerDIV.write_div).div = 0 ∧ (timerDIV.write_div).tima = 0x11 :=
  ⟨(write_div_resets_and_can_tick timerDIV (by decide)).1,
   by
    have h := (write_div_resets_and_can_tick timerDIV (by decide)).2.2.2.1
    simpa using h⟩

/-- C6: get_pending_interrupt returns the highest-priority source whose
bit is set in IF & IE & 0x1F, in the order VBlank, LCD STAT, Timer,
Serial, Joypad, and none exactly when that mask is 0; with IE = 0x1F and
both VBlank and Timer requested it returns VBlank. -/
theorem get_pending_interrupt_priority (ic : InterruptController) :
    (ic.get_pending_interrupt = none ↔
      ic.interrupt_flag &&& ic.interrupt_enable &&& 0x1F = 0) ∧
    (ic.get_pending_interrupt = some .VBlank ↔
      (ic.interrupt_flag &&& ic.interrupt_enable &&& 0x1F).testBit 0) ∧
    (ic.get_pending_interrupt = some .LcdStat ↔
      ¬(ic.interrupt_flag &&& ic.interrupt_enable &&& 0x1F).testBit 0 ∧
      (ic.interrupt_flag &&& ic.interrupt_enable &&& 0x1F).testBit 1) ∧
    (ic.get_pending_interrupt = some .Timer ↔
      ¬(ic.interrupt_flag &&& ic.interrupt_enable &&& 0x1F).testBit 0 ∧
      ¬(ic.interrupt_flag &&& ic.interrupt_enable &&& 0x1F).testBit 1 ∧
      (ic.interrupt_flag &&& ic.interrupt_enable &&& 0x1F).testBit 2) ∧
    (ic.get_pending_interrupt = some .Serial ↔
      ¬(ic.interrupt_flag &&& ic.interrupt_enable &&& 0x1F).testBit 0 ∧
      ¬(ic.interrupt_flag &&& ic.interrupt_enable &&& 0x1F).testBit 1 ∧
      ¬(ic.interrupt_flag &&& ic.interrupt_enable &&& 0x1F).testBit 2 ∧
      (ic.interrupt_flag &&& ic.interrupt_enable &&& 0x1F).testBit 3) ∧
    (ic.get_pending_interrupt = some .Joypad ↔
      ¬(ic.interrupt_flag &&& ic.interrupt_enable &&& 0x1F).testBit 0 ∧
      ¬(ic.interrupt_flag &&& ic.interrupt_enable &&& 0x1F).testBit 1 ∧
      ¬(ic.interrupt_flag &&& ic.interrupt_enable &&& 0x1F).testBit 2 ∧
      ¬(ic.interrupt_flag &&& ic.interrupt_enable &&& 0x1F).testBit 3 ∧
      (ic.interrupt_flag &&& ic.interrupt_enable &&& 0x1F).testBit 4) ∧
    InterruptController.get_pending_interrupt
      { interrupt_flag := 0xE5, interrupt_enable := 0x1F } = some .VBlank := by
  have key : ∀ p < 32,
      ((if p = 0 then none
        else Interrupt.ALL.find? fun i => p &&& i.bit_mask ≠ 0) = none ↔ p = 0) ∧
      ((if p = 0 then none
        else Interrupt.ALL.find? fun i => p &&& i.bit_mask ≠ 0) = some .VBlank ↔
        p.testBit 0) ∧
      ((if p = 0 then none
        else Interrupt.ALL.find? fun i => p &&& i.bit_mask ≠ 0) = some .LcdStat ↔
        ¬p.testBit 0 ∧ p.testBit 1) ∧
      ((if p = 0 then none
        else Interrupt.ALL.find? fun i => p &&& i.bit_mask ≠ 0) = some .Timer ↔
        ¬p.testBit 0 ∧ ¬p.testBit 1 ∧ p.testBit 2) ∧
      ((if p = 0 then none
        else Interrupt.ALL.find? fun i => p &&& i.bit_mask ≠ 0) = some .Serial ↔
        ¬p.testBit 0 ∧ ¬p.testBit 1 ∧ ¬p.testBit 2 ∧ p.testBit 3) ∧
      ((if p = 0 then none
        else Interrupt.ALL.find? fun i => p &&& i.bit_mask ≠ 0) = some .Joypad ↔
        ¬p.testBit 0 ∧ ¬p.testBit 1 ∧ ¬p.testBit 2 ∧ ¬p.testBit 3 ∧ p.testBit 4) := by
    decide
  have hp : ic.interrupt_flag &&& ic.interrupt_enable &&& 0x1F < 32 :=
    lt_of_le_of_lt Nat.and_le_right (by norm_num)
  have h := key _ hp
  unfold InterruptController.get_pending_interrupt
  exact ⟨h.1, h.2.1, h.2.2.1, h.2.2.2.1, h.2.2.2.2.1, h.2.2.2.2.2, by decide⟩

/-- Witness for C6's theorem at a concrete controller (IF requesting
VBlank and Timer, IE = 0x1F). -/
theorem get_pending_interrupt_priority_witness :
    InterruptController.get_pending_interrupt
        { interrupt_flag := 0xE5, interrupt_enable := 0x1F } = some .VBlank := by
  have h := get_pending_interrupt_priority { interrupt_flag := 0xE5, interrupt_enable := 0x1F }
  exact (h.2.1).2 (by decide)

/-- Reinterpreting a byte as i8 and back as u8 is the identity. -/
theorem i8_roundtrip (b : Nat) (hb : b < 256) : i8ToByte (byteToI8 b) = b := by
  unfold byteToI8 i8ToByte
  by_cases h : b < 128 <;> simp [h] <;> omega

/-- add_sp_signed computes the sum of SP and the signed immediate modulo
2^16 (as an integer congruence). -/
theorem add_sp_signed_emod (sp : Nat) (off : Int) :
    fh.add_sp_signed sp off = (((sp : Int) + off) % 65536).toNat := by
  unfold fh.add_sp_signed i16ToU16
  omega

/-- C7: ADD SP,r8 and LD HL,SP+r8 compute SP plus the sign-extended
immediate modulo 2^16, while H is set iff (SP & 0xF) + (r8 as an unsigned
byte & 0xF) > 0xF and C iff (SP & 0xFF) + (r8 as an unsigned byte) >
0xFF; zero and subtract are both cleared. -/
theorem addsp_signed_result_unsigned_flags (c : CPU)
    (hpc : c.registers.pc + 1 ≤ 65535)
    (hb : c.bus.read_byte (c.registers.pc + 1) < 256) :
    let b := c.bus.read_byte (c.registers.pc + 1)
    let r := (((c.registers.sp : Int) + byteToI8 b) % 65536).toNat
    let fl : FlagsRegister :=
      { zero := false
        subtract := false
        half_carry := (c.registers.sp &&& 0x0F) + (b &&& 0x0F) > 0x0F
        carry := (c.registers.sp &&& 0xFF) + b > 0xFF }
    c.execute .ADDSP =
      some ({ c with registers := { c.registers with sp := r, f := fl } },
            wadd16 c.registers.pc 2, 16) ∧
    c.execute .LDHLSP =
      some ({ c with registers := Registers.set_hl { c.registers with f := fl } r },
            wadd16 c.registers.pc 2, 12) := by
  have hread : c.read_next_byte = some (c.bus.read_byte (c.registers.pc + 1)) := by
    unfold CPU.read_next_byte checkedAdd16
    simp [hpc]
  have hrt := i8_roundtrip _ hb
  have hsp := add_sp_signed_emod c.registers.sp
    (byteToI8 (c.bus.read_byte (c.registers.pc + 1)))
  constructor <;>
    simp [CPU.execute, hread, fh.half_carry_add_sp, fh.carry_add_sp, hrt, hsp]

/-- Witness for C7's theorem at the concrete state cpuADDSP
(SP = 0x0005, immediate 0xF8 = -8): result 0xFFFD, H and C clear. -/
theorem addsp_signed_result_unsigned_flags_witness :
    (cpuADDSP.execute .ADDSP).map
        (fun r => (r.1.registers.sp, r.1.registers.f.zero, r.1.registers.f.subtract,
                   r.1.registers.f.half_carry, r.1.registers.f.carry, r.2.1, r.2.2)) =
      some (0xFFFD, false, false, false, false, 0xC002, 16) := by
  have h := (addsp_signed_result_unsigned_flags cpuADDSP (by decide) (by decide)).1
  rw [h]
  rfl

/-- C8 (amended): decode is pure and total; it returns Some for all 256
CB-prefixed bytes and for 225 unprefixed bytes, and None for the other
31: the 11 unassigned opcodes, the CB prefix byte itself (dispatched
separately by step), and 19 assigned-but-undecoded opcodes (0x10 STOP,
0x34/0x35 INC/DEC (HL), the eight (HL)-operand and the eight
d8-operand ALU forms); step() treats a None decode as fatal, producing
no successor state (the source panics) rather than a silent no-op. -/
theorem decode_implemented_totality :
    (∀ b : Nat, b < 256 →
      (decode_instruction b true).isSome = true ∧
      ((decode_instruction b false = none) ↔
        b ∈ ([0x10, 0x34, 0x35, 0x86, 0x8E, 0x96, 0x9E, 0xA6, 0xAE, 0xB6, 0xBE,
              0xC6, 0xCB, 0xCE, 0xD3, 0xD6, 0xDB, 0xDD, 0xDE, 0xE3, 0xE4, 0xE6,
              0xEB, 0xEC, 0xED, 0xEE, 0xF4, 0xF6, 0xFC, 0xFD, 0xFE] : List Nat))) ∧
    (∀ c : CPU, c.is_halted = false → c.handle_interrupts = none →
      c.bus.read_byte c.registers.pc ≠ 0xCB →
      decode_instruction (c.bus.read_byte c.registers.pc) false = none →
      c.step = none) := by
  constructor
  · set_option maxRecDepth 100000 in decide
  · intro c hh hni hne hd
    obtain ⟨regs, bus, ih, ime, ei, hbug⟩ := c
    simp only at hh hni hne hd
    subst hh
    unfold CPU.step
    simp only [CPU.wake_from_halt, ite_self, hni]
    simp [hne, hd]

/-- Witness for C8's theorem: a decodable CB byte and the concrete
unknown-opcode state cpuUnknown (0xD3 at PC), on which step panics. -/
theorem decode_implemented_totality_witness :
    (decode_instruction 0x00 true).isSome = true ∧ cpuUnknown.step = none := by
  refine ⟨(decode_implemented_totality.1 0x00 (by decide)).1, ?_⟩
  exact decode_implemented_totality.2 cpuUnknown rfl rfl (by decide) (by decide)

/-- C8 counterexample to the claim as stated: 0xC6 (ADD A,d8) and 0x10
(STOP) are assigned opcodes — CPU::execute implements ADD A,d8, adding
the immediate into A, advancing PC by 2 and costing 8 cycles — yet
decode returns None for them, so step() panics on ROMs containing them
(including the specification's own §8 scenario bytes 3E 05 C6 03). -/
theorem decode_rejects_assigned_opcodes :
    decode_instruction 0xC6 false = none ∧
    decode_instruction 0x10 false = none ∧
    (cpuADDd8.execute (.ADD .D8)).map
        (fun r => (r.1.registers.a, r.2.1, r.2.2)) = some (0x04, 0xC002, 8) ∧
    (cpuADDd8.step).isNone = true := by
  refine ⟨by decide, by decide, by decide, by decide⟩

/-- C1 (evaluation at the failing input): in cpuEI the step that executes
EI already commits the deferred enable within the same step() call (IME is
true and ei_pending is already cleared when it returns), so the very next
step() dispatches the pending VBlank interrupt (PC = 0x0040, 20 cycles)
instead of fetching the instruction after EI. -/
theorem ei_commits_within_executing_step :
    (cpuEI.step).map
        (fun r => (r.1.interrupts_enabled, r.1.ei_pending, r.1.registers.pc, r.2)) =
      some (true, false, 0xC001, 4) ∧
    (cpuEI.step2).map (fun r => (r.1.registers.pc, r.1.registers.sp, r.2)) =
      some (0x0040, 0xFFFC, 20) := by
  constructor <;> decide

/-- C9 (evaluation at the failing input): at PC = 0xFFFF the fetched
opcode (the IE register, set to 0x18 = JR r8) is assigned and decodes,
yet step() hits the unchecked PC + 1 operand-address addition, which
overflows u16 instead of wrapping: no successor state exists (the Rust
code panics when overflow checks are enabled). -/
theorem step_panics_at_top_of_memory :
    cpuJRTop.registers.pc = 0xFFFF ∧
    cpuJRTop.bus.read_byte cpuJRTop.registers.pc = 0x18 ∧
    decode_instruction 0x18 false = some (.JR .Always) ∧
    (cpuJRTop.step).isNone = true := by
  refine ⟨rfl, by decide, by decide, by decide⟩

/-- C10: executing DI (0xF3) clears both IME and the deferred-EI latch;
the resulting state cannot dispatch an interrupt on the following step
regardless of the IF/IE contents (handle_interrupts is none for every
register pair), and it is not halted, so the next step proceeds to
fetch. -/
theorem di_clears_ime_and_ei_pending (c : CPU)
    (hh : c.is_halted = false) (hb : c.halt_bug = false)
    (hni : c.handle_interrupts = none)
    (hop : c.bus.read_byte c.registers.pc = 0xF3) :
    c.step = some ({ c with
      is_halted := false
      interrupts_enabled := false
      ei_pending := false
      registers := { c.registers with pc := wadd16 c.registers.pc 1 } }, 4) ∧
    (∀ fl en : Nat,
      CPU.handle_interrupts { c with
        is_halted := false
        interrupts_enabled := false
        ei_pending := false
        registers := { c.registers with pc := wadd16 c.registers.pc 1 }
        bus := { c.bus with
                 interrupts := { interrupt_flag := fl, interrupt_enable := en } } } =
        none) := by
  obtain ⟨regs, bus, ih, ime, ei, hbug⟩ := c
  simp only at hh hb hni hop
  subst hh hb
  constructor
  · have hdec : decode_instruction 0xF3 false = some .DI := by decide
    unfold CPU.step
    simp only [CPU.wake_from_halt, ite_self, hni, hop]
    simp [hdec, CPU.execute, CPU.ei_commit]
  · intro fl en
    simp [CPU.handle_interrupts]

/-- Unfolding of the HALT arm of CPU::execute. -/
theorem execute_HALT_eq (c : CPU) :
    c.execute .HALT =
      if ¬c.interrupts_enabled ∧ c.bus.any_interrupt_pending then
        some ({ c with halt_bug := true }, wadd16 c.registers.pc 1, 4)
      else some ({ c with is_halted := true }, wadd16 c.registers.pc 1, 4) := rfl

/-- C2: executing HALT with IME enabled, or with no interrupt pending,
transitions the CPU to Halted; with IME disabled and IE & IF & 0x1F != 0
it leaves the CPU Running and arms the one-shot HaltBug latch. On the
next step() the latch is cleared and PC is decremented by 1 before
execution, and in the concrete HALT-then-INC-A trace the byte after HALT
(0x3C at 0xC001) is fetched and executed twice — exactly once more than
normal — after which the latch stays clear and PC moves on to 0xC002. -/
theorem halt_semantics :
    (∀ c : CPU,
      (c.interrupts_enabled = false ∧
          c.bus.interrupts.interrupt_flag &&& c.bus.interrupts.interrupt_enable &&& 0x1F ≠ 0 →
        c.execute .HALT = some ({ c with halt_bug := true }, wadd16 c.registers.pc 1, 4)) ∧
      (c.interrupts_enabled = true ∨
          c.bus.interrupts.interrupt_flag &&& c.bus.interrupts.interrupt_enable &&& 0x1F = 0 →
        c.execute .HALT = some ({ c with is_halted := true }, wadd16 c.registers.pc 1, 4))) ∧
    (∀ (c : CPU) (instr : Instruction),
      c.halt_bug = true → c.is_halted = false → c.interrupts_enabled = false →
      c.bus.read_byte c.registers.pc ≠ 0xCB →
      decode_instruction (c.bus.read_byte c.registers.pc) false = some instr →
      c.step =
        (CPU.execute { c with
            halt_bug := false
            registers := { c.registers with pc := wsub16 c.registers.pc 1 } } instr).map
          (fun r =>
            (CPU.ei_commit { r.1 with
                registers := { r.1.registers with pc := r.2.1 } }, r.2.2))) ∧
    ((cpuHALT.step).map
        (fun r => (r.1.is_halted, r.1.halt_bug, r.1.registers.pc, r.2)) =
      some (false, true, 0xC001, 4) ∧
     (cpuHALT.step2).map
        (fun r => (r.1.registers.a, r.1.halt_bug, r.1.registers.pc, r.2)) =
      some (0x02, false, 0xC001, 4) ∧
     (cpuHALT.step3).map (fun r => (r.1.registers.a, r.1.registers.pc, r.2)) =
      some (0x03, 0xC002, 4)) := by
  refine ⟨fun c => ⟨?_, ?_⟩, ?_, by decide, by decide, by decide⟩
  · rintro ⟨h1, h2⟩
    rw [execute_HALT_eq, if_pos]
    exact ⟨by simp [h1],
           by simp [MemoryBus.any_interrupt_pending,
                    InterruptController.any_interrupt_pending, h2]⟩
  · intro h
    rw [execute_HALT_eq, if_neg]
    rintro ⟨hn1, hn2⟩
    rcases h with h | h
    · exact hn1 (by simp [h])
    · simp [MemoryBus.any_interrupt_pending,
            InterruptController.any_interrupt_pending, h] at hn2
  · intro c instr hb hh hime hne hd
    obtain ⟨regs, bus, ih, ime, ei, hbug⟩ := c
    simp only at hb hh hime hne hd
    subst hb hh hime
    have hni : CPU.handle_interrupts
        { registers := regs, bus := bus, is_halted := false, interrupts_enabled := false,
          ei_pending := ei, halt_bug := true } = none := by
      simp [CPU.handle_interrupts]
    unfold CPU.step
    simp only [CPU.wake_from_halt, ite_self, hni]
    simp only [hne, hd]
    cases hx : CPU.execute
        { registers := { regs with pc := wsub16 regs.pc 1 }, bus := bus, is_halted := false,
          interrupts_enabled := false, ei_pending := ei, halt_bug := false } instr with
    | none => simp [hd, hx]
    | some r => simp [hd, hx]

/-- Witness for C2's theorem at the concrete state cpuHALT (IME off,
VBlank pending): HALT arms the latch instead of halting. -/
theorem halt_semantics_witness :
    cpuHALT.execute .HALT =
      some ({ cpuHALT with halt_bug := true }, wadd16 cpuHALT.registers.pc 1, 4) :=
  (halt_semantics.1 cpuHALT).1 ⟨rfl, by decide⟩

/-- A pending source implies the any-pending mask test is true. -/
theorem any_pending_of_get_pending {ic : InterruptController} {i : Interrupt}
    (h : ic.get_pending_interrupt = some i) : ic.any_interrupt_pending = true := by
  unfold InterruptController.get_pending_interrupt at h
  unfold InterruptController.any_interrupt_pending
  by_cases h0 : ic.interrupt_flag &&& ic.interrupt_enable &&& 0x1F = 0
  · simp [h0] at h
  · simp [h0]

/-- step() returns the dispatch result unchanged when an interrupt is
pending and handle_interrupts fires on the woken state. -/
theorem step_of_dispatch (c : CPU) (r : CPU × Nat)
    (hw : c.bus.any_interrupt_pending = true)
    (hd : (c.wake_from_halt).handle_interrupts = some r) : c.step = some r := by
  unfold CPU.step
  simp only [hw, if_true, hd]

/-- Unfolding of CPU::push: SP decremented before each byte write, high
byte written first (at the higher address). -/
theorem push_eq (c : CPU) (v : Nat) :
    c.push v =
      { c with
        bus := (c.bus.write_byte (wsub16 c.registers.sp 1) ((v &&& 0xFF00) >>> 8)).write_byte
                 (wsub16 (wsub16 c.registers.sp 1) 1) (v &&& 0xFF)
        registers := { c.registers with sp := wsub16 (wsub16 c.registers.sp 1) 1 } } := by
  unfold CPU.push
  rfl

/-- Scalar observables of a dispatching handle_interrupts call. -/
theorem handle_interrupts_scalars (c : CPU) (i : Interrupt)
    (hime : c.interrupts_enabled = true)
    (hp : c.bus.interrupts.get_pending_interrupt = some i) :
    (c.handle_interrupts).map
        (fun r => (r.1.interrupts_enabled, r.1.is_halted, r.1.registers.pc,
                   r.1.registers.sp, r.2)) =
      some (false, c.is_halted, i.handler_address,
            wsub16 (wsub16 c.registers.sp 1) 1, 20) := by
  obtain ⟨regs, bus, ih, ime, ei, hbug⟩ := c
  simp only at hime hp
  subst hime
  unfold CPU.handle_interrupts
  rw [hp]
  rfl

/-- Bus observable of a dispatching handle_interrupts call: the push
writes (high byte at SP-1 first, then low byte at SP-2) with the serviced
source's IF bit cleared afterwards. -/
theorem handle_interrupts_bus (c : CPU) (i : Interrupt)
    (hime : c.interrupts_enabled = true)
    (hp : c.bus.interrupts.get_pending_interrupt = some i) :
    (c.handle_interrupts).map (fun r => r.1.bus) =
      some
        (let pushed :=
          (c.bus.write_byte (wsub16 c.registers.sp 1)
              ((c.registers.pc &&& 0xFF00) >>> 8)).write_byte
            (wsub16 (wsub16 c.registers.sp 1) 1) (c.registers.pc &&& 0xFF)
         { pushed with interrupts := pushed.interrupts.acknowledge_interrupt i }) := by
  obtain ⟨regs, bus, ih, ime, ei, hbug⟩ := c
  simp only at hime hp
  subst hime
  unfold CPU.handle_interrupts
  rw [hp]
  simp only [push_eq]
  rfl

/-- C3: with IME enabled and a pending source i, step() dispatches
without fetching an opcode: it wakes (Halted cleared), disables IME,
pushes the current PC high byte first with SP decremented before each
byte write, clears i's IF bit, sets PC to i's fixed handler address, and
returns exactly 20 cycles. -/
theorem interrupt_dispatch (c : CPU) (i : Interrupt)
    (hime : c.interrupts_enabled = true)
    (hp : c.bus.interrupts.get_pending_interrupt = some i) :
    (c.step).map
        (fun r => (r.1.interrupts_enabled, r.1.is_halted, r.1.registers.pc,
                   r.1.registers.sp, r.2)) =
      some (false, false, i.handler_address,
            wsub16 (wsub16 c.registers.sp 1) 1, 20) ∧
    (c.step).map (fun r => r.1.bus) =
      some
        (let pushed :=
          (c.bus.write_byte (wsub16 c.registers.sp 1)
              ((c.registers.pc &&& 0xFF00) >>> 8)).write_byte
            (wsub16 (wsub16 c.registers.sp 1) 1) (c.registers.pc &&& 0xFF)
         { pushed with interrupts := pushed.interrupts.acknowledge_interrupt i }) := by
  have hw : c.bus.any_interrupt_pending = true := by
    unfold MemoryBus.any_interrupt_pending
    exact any_pending_of_get_pending hp
  have hime' : (c.wake_from_halt).interrupts_enabled = true := hime
  have hp' : (c.wake_from_halt).bus.interrupts.get_pending_interrupt = some i := hp
  obtain ⟨r, hr⟩ : ∃ r, (c.wake_from_halt).handle_interrupts = some r := by
    unfold CPU.handle_interrupts
    rw [show (c.wake_from_halt).interrupts_enabled = true from hime']
    rw [show (c.wake_from_halt).bus.interrupts.get_pending_interrupt = some i from hp']
    exact ⟨_, rfl⟩
  have hstep : c.step = some r := step_of_dispatch c r hw hr
  have h1 := handle_interrupts_scalars (c.wake_from_halt) i hime' hp'
  have h2 := handle_interrupts_bus (c.wake_from_halt) i hime' hp'
  rw [hr] at h1 h2
  rw [hstep]
  exact ⟨h1, h2⟩

/-- Witness for C3's theorem at the concrete state cpuDispatch. -/
theorem interrupt_dispatch_witness :
    (cpuDispatch.step).map
        (fun r => (r.1.interrupts_enabled, r.1.is_halted, r.1.registers.pc,
                   r.1.registers.sp, r.2)) =
      some (false, false, 0x0040, 0xFFFC, 20) := by
  rw [(interrupt_dispatch cpuDispatch .VBlank rfl (by decide)).1]
  decide

/-- Witness for C10's theorem at the concrete state cpuDI. -/
theorem di_clears_ime_and_ei_pending_witness :
    (cpuDI.step).map
        (fun r => (r.1.interrupts_enabled, r.1.ei_pending, r.1.registers.pc, r.2)) =
      some (false, false, 0xC001, 4) := by
  have h := (di_clears_ime_and_ei_pending cpuDI rfl rfl rfl (by decide)).1
  rw [h]
  decide

end GB
